import Mathlib

/-!
# ACL decompression core: the full precision decoder and the format helpers

A shallow embedding of

* `acl/algorithm/full_precision_decoder.h` (`full_precision_decoder`),
* `acl/decompression/impl/transform_decompression_context.h` (the persistent context, its
  layout, the two category adapters, `get_rotation_format`, `get_vector_format` and their
  counting helpers), and
* the pointer offset that `tests/sources/core/test_ptr_offset.cpp` exercises.

Conventions of the embedding:

* `uint32_t` values are natural numbers and every `uint32_t` operation of the source is
  reduced modulo `2^32` (`u32`, `u32_add`, `u32_sub`, `u32_mul`).
* `float` is an abstract scalar type `F` that carries the operations the source uses
  (`+`, `-`, `*`, `/`, the conversion from `uint32_t`, the comparison).  Nothing is assumed
  about these operations unless a theorem lists the law it needs as a hypothesis.
* A `const float*` / `const uint32_t*` is a memory `Nat → F` / `Nat → Nat` read at an element
  offset; a cursor into such a stream is the element offset from the start of the stream.
* The output writer and the bit tests are observed through a trace of events, in program
  order.
* A pointer is an address, a natural number, and `nullptr` is `0`.
-/

namespace acl

/-! ## 32-bit unsigned arithmetic -/

/-- Value of a natural number stored in a `uint32_t`. -/
def u32 (n : Nat) : Nat := n % 4294967296

/-- Addition of `uint32_t`. -/
def u32_add (a b : Nat) : Nat := u32 (a + b)

/-- Subtraction of `uint32_t` (wraps below zero). -/
def u32_sub (a b : Nat) : Nat := u32 (u32 a + 4294967296 - u32 b)

/-- Multiplication of `uint32_t`. -/
def u32_mul (a b : Nat) : Nat := u32 (a * b)

/-! ## Math types and helpers (`acl/math/quat_32.h`, `acl/math/vector4_32.h`) -/

/-- Quaternion of four floats `[x, y, z, w]`. -/
structure Quat_32 (F : Type) where
  x : F
  y : F
  z : F
  w : F
deriving DecidableEq

/-- Vector register as the decoder uses it for a translation: the three lanes that
`vector_unaligned_load3` fills from memory.  The fourth lane holds no track data. -/
structure Vector4_32 (F : Type) where
  x : F
  y : F
  z : F
deriving DecidableEq

section math
variable {F : Type}

/-- Modelled from the spec: `quat_32_identity` of `acl/math/quat_32.h` (not part of the
sources at hand), the identity quaternion `(0, 0, 0, 1)`. -/
def quat_32_identity [Zero F] [One F] : Quat_32 F := ⟨0, 0, 0, 1⟩

/-- Modelled from the spec: `vector_32_zero` of `acl/math/vector4_32.h` (not part of the
sources at hand), the zero vector. -/
def vector_32_zero [Zero F] : Vector4_32 F := ⟨0, 0, 0⟩

/-- Modelled from the spec: `quat_unaligned_load` of `acl/math/quat_32.h` (not part of the
sources at hand): reads 4 consecutive floats at the pointer. -/
def quat_unaligned_load (mem : Nat → F) (ptr : Nat) : Quat_32 F :=
  ⟨mem ptr, mem (ptr + 1), mem (ptr + 2), mem (ptr + 3)⟩

/-- Modelled from the spec: `vector_unaligned_load3` of `acl/math/vector4_32.h` (not part of
the sources at hand): reads 3 consecutive floats at the pointer. -/
def vector_unaligned_load3 (mem : Nat → F) (ptr : Nat) : Vector4_32 F :=
  ⟨mem ptr, mem (ptr + 1), mem (ptr + 2)⟩

/-- Linear blend of two scalars, `v0 + (v1 - v0) * alpha`. -/
def scalar_lerp [Add F] [Sub F] [Mul F] (v0 v1 alpha : F) : F := v0 + (v1 - v0) * alpha

/-- Modelled from the spec: `quat_lerp` of `acl/math/quat_32.h` (not part of the sources at
hand): the component-wise linear blend by `alpha`, with no renormalization and no sign
correction. -/
def quat_lerp [Add F] [Sub F] [Mul F] (q0 q1 : Quat_32 F) (alpha : F) : Quat_32 F :=
  ⟨scalar_lerp q0.x q1.x alpha, scalar_lerp q0.y q1.y alpha,
   scalar_lerp q0.z q1.z alpha, scalar_lerp q0.w q1.w alpha⟩

/-- Modelled from the spec: `vector_lerp` of `acl/math/vector4_32.h` (not part of the sources
at hand): the component-wise linear blend by `alpha`. -/
def vector_lerp [Add F] [Sub F] [Mul F] (v0 v1 : Vector4_32 F) (alpha : F) : Vector4_32 F :=
  ⟨scalar_lerp v0.x v1.x alpha, scalar_lerp v0.y v1.y alpha, scalar_lerp v0.z v1.z alpha⟩

end math

/-! ## Clip header and external helpers (`acl/algorithm/full_precision_common.h`) -/

namespace FullPrecisionConstants

/-- Modelled from the spec: `FullPrecisionConstants::NUM_TRACKS_PER_BONE` (declared in
`full_precision_common.h`, not part of the sources at hand): rotation and translation. -/
def NUM_TRACKS_PER_BONE : Nat := 2

/-- Modelled from the spec: `FullPrecisionConstants::BITSET_WIDTH` (declared in
`full_precision_common.h`, not part of the sources at hand): bits per bitset word. -/
def BITSET_WIDTH : Nat := 32

end FullPrecisionConstants

/-- The fields of `FullPrecisionHeader` that the decoder reads.  The five counters are
`uint32_t`; the four streams are what `get_default_tracks_bitset`,
`get_constant_tracks_bitset`, `get_constant_track_data` and `get_track_data` point to. -/
structure FullPrecisionHeader (F : Type) where
  num_bones : Nat
  num_samples : Nat
  sample_rate : Nat
  num_animated_rotation_tracks : Nat
  num_animated_translation_tracks : Nat
  default_tracks_bitset : Nat → Nat
  constant_tracks_bitset : Nat → Nat
  constant_track_data : Nat → F
  track_data : Nat → F

/-- The three outputs of `calculate_interpolation_keys`. -/
structure InterpolationKeys (F : Type) where
  key_frame0 : Nat
  key_frame1 : Nat
  interpolation_alpha : F

/-- The two helpers of `acl/core/utils.h` that the decoder calls and whose bodies are not
part of the sources at hand; the decoder is parametric in them.
`calculate_interpolation_keys num_samples clip_duration sample_time` and
`bitset_test bitset size offset`. -/
structure Externals (F : Type) where
  calculate_interpolation_keys : Nat → F → F → InterpolationKeys F
  bitset_test : (Nat → Nat) → Nat → Nat → Bool

/-! ## The decoder (`full_precision_decoder.h`) -/

/-- What one decode pass does that the outside can observe: the bit tests on the two bitsets
(with the offset tested) and the calls of the output writer (with their arguments). -/
inductive Event (F : Type) where
  | bitset_test_default (offset : Nat) : Event F
  | bitset_test_constant (offset : Nat) : Event F
  | write_bone_rotation (bone_index : Nat) (rotation : Quat_32 F) : Event F
  | write_bone_translation (bone_index : Nat) (translation : Vector4_32 F) : Event F

/-- The mutable locals of `full_precision_decoder`, and the trace of events so far.
`constant_track_data`, `key_frame_data0` and `key_frame_data1` are float offsets from the
start of the constant stream and of the animated stream. -/
structure DecodeState (F : Type) where
  default_track_offset : Nat
  constant_track_offset : Nat
  constant_track_data : Nat
  key_frame_data0 : Nat
  key_frame_data1 : Nat
  trace : List (Event F)

/-- Line 74: `((num_bones * NUM_TRACKS_PER_BONE) + BITSET_WIDTH - 1) / BITSET_WIDTH` in
`uint32_t`, with the two constants as arguments. -/
def bitset_size (num_bones num_tracks_per_bone bitset_width : Nat) : Nat :=
  u32_sub (u32_add (u32_mul num_bones num_tracks_per_bone) bitset_width) 1 / bitset_width

/-- Line 85: `(num_animated_rotation_tracks * 4) + (num_animated_translation_tracks * 3)`. -/
def num_animated_floats_per_key_frame {F : Type} (header : FullPrecisionHeader F) : Nat :=
  u32_add (u32_mul header.num_animated_rotation_tracks 4)
    (u32_mul header.num_animated_translation_tracks 3)

/-- Line 67: `float(header.num_samples - 1) / float(header.sample_rate)`. -/
def clip_duration {F : Type} [NatCast F] [Div F] (header : FullPrecisionHeader F) : F :=
  ((u32_sub header.num_samples 1 : Nat) : F) / ((header.sample_rate : Nat) : F)

/-- Lines 69-72: the keys that `calculate_interpolation_keys` returns for the clip and the
sample time. -/
def interpolation_keys {F : Type} [NatCast F] [Div F] (ext : Externals F)
    (header : FullPrecisionHeader F) (sample_time : F) : InterpolationKeys F :=
  ext.calculate_interpolation_keys header.num_samples (clip_duration header) sample_time

section decoder
variable {F : Type} [Add F] [Sub F] [Mul F] [Zero F] [One F]

/-- Lines 93-121 of the loop body: the rotation track of bone `bone_index`. -/
def decode_rotation_track (ext : Externals F) (header : FullPrecisionHeader F)
    (size : Nat) (interpolation_alpha : F) (bone_index : Nat) (s : DecodeState F) :
    DecodeState F :=
  if ext.bitset_test header.default_tracks_bitset size s.default_track_offset then
    { s with
      default_track_offset := u32 (s.default_track_offset + 1)
      constant_track_offset := u32 (s.constant_track_offset + 1)
      trace := s.trace ++
        [Event.bitset_test_default s.default_track_offset,
         Event.write_bone_rotation bone_index quat_32_identity] }
  else if ext.bitset_test header.constant_tracks_bitset size s.constant_track_offset then
    { s with
      default_track_offset := u32 (s.default_track_offset + 1)
      constant_track_offset := u32 (s.constant_track_offset + 1)
      constant_track_data := s.constant_track_data + 4
      trace := s.trace ++
        [Event.bitset_test_default s.default_track_offset,
         Event.bitset_test_constant s.constant_track_offset,
         Event.write_bone_rotation bone_index
           (quat_unaligned_load header.constant_track_data s.constant_track_data)] }
  else
    { s with
      default_track_offset := u32 (s.default_track_offset + 1)
      constant_track_offset := u32 (s.constant_track_offset + 1)
      key_frame_data0 := s.key_frame_data0 + 4
      key_frame_data1 := s.key_frame_data1 + 4
      trace := s.trace ++
        [Event.bitset_test_default s.default_track_offset,
         Event.bitset_test_constant s.constant_track_offset,
         Event.write_bone_rotation bone_index
           (quat_lerp (quat_unaligned_load header.track_data s.key_frame_data0)
             (quat_unaligned_load header.track_data s.key_frame_data1)
             interpolation_alpha)] }

/-- Lines 123-151 of the loop body: the translation track of bone `bone_index`. -/
def decode_translation_track (ext : Externals F) (header : FullPrecisionHeader F)
    (size : Nat) (interpolation_alpha : F) (bone_index : Nat) (s : DecodeState F) :
    DecodeState F :=
  if ext.bitset_test header.default_tracks_bitset size s.default_track_offset then
    { s with
      default_track_offset := u32 (s.default_track_offset + 1)
      constant_track_offset := u32 (s.constant_track_offset + 1)
      trace := s.trace ++
        [Event.bitset_test_default s.default_track_offset,
         Event.write_bone_translation bone_index vector_32_zero] }
  else if ext.bitset_test header.constant_tracks_bitset size s.constant_track_offset then
    { s with
      default_track_offset := u32 (s.default_track_offset + 1)
      constant_track_offset := u32 (s.constant_track_offset + 1)
      constant_track_data := s.constant_track_data + 3
      trace := s.trace ++
        [Event.bitset_test_default s.default_track_offset,
         Event.bitset_test_constant s.constant_track_offset,
         Event.write_bone_translation bone_index
           (vector_unaligned_load3 header.constant_track_data s.constant_track_data)] }
  else
    { s with
      default_track_offset := u32 (s.default_track_offset + 1)
      constant_track_offset := u32 (s.constant_track_offset + 1)
      key_frame_data0 := s.key_frame_data0 + 3
      key_frame_data1 := s.key_frame_data1 + 3
      trace := s.trace ++
        [Event.bitset_test_default s.default_track_offset,
         Event.bitset_test_constant s.constant_track_offset,
         Event.write_bone_translation bone_index
           (vector_lerp (vector_unaligned_load3 header.track_data s.key_frame_data0)
             (vector_unaligned_load3 header.track_data s.key_frame_data1)
             interpolation_alpha)] }

/-- One iteration of the loop of lines 91-152. -/
def decode_bone (ext : Externals F) (header : FullPrecisionHeader F)
    (size : Nat) (interpolation_alpha : F) (s : DecodeState F) (bone_index : Nat) :
    DecodeState F :=
  decode_translation_track ext header size interpolation_alpha bone_index
    (decode_rotation_track ext header size interpolation_alpha bone_index s)

/-- The loop of lines 91-152 run for `bone_index = 0, ..., n - 1`. -/
def decode_bones (ext : Externals F) (header : FullPrecisionHeader F)
    (size : Nat) (interpolation_alpha : F) (s : DecodeState F) (n : Nat) : DecodeState F :=
  (List.range n).foldl (decode_bone ext header size interpolation_alpha) s

/-- The locals of `full_precision_decoder` on entry of the loop (lines 67-89). -/
def initial_state [NatCast F] [Div F] (ext : Externals F) (header : FullPrecisionHeader F)
    (sample_time : F) : DecodeState F :=
  let keys := interpolation_keys ext header sample_time
  { default_track_offset := 0
    constant_track_offset := 0
    constant_track_data := 0
    key_frame_data0 := u32_mul keys.key_frame0 (num_animated_floats_per_key_frame header)
    key_frame_data1 := u32_mul keys.key_frame1 (num_animated_floats_per_key_frame header)
    trace := [] }

/-- The decoder `full_precision_decoder(clip, sample_time, writer)`, from the header of a clip
that passed the two `ensure` checks of lines 62-63.  The result is the state of the locals
when the loop ends; its `trace` holds the writer calls. -/
def full_precision_decoder [NatCast F] [Div F] (ext : Externals F)
    (header : FullPrecisionHeader F) (sample_time : F) : DecodeState F :=
  let keys := interpolation_keys ext header sample_time
  let size := bitset_size header.num_bones FullPrecisionConstants.NUM_TRACKS_PER_BONE
    FullPrecisionConstants.BITSET_WIDTH
  decode_bones ext header size keys.interpolation_alpha
    (initial_state ext header sample_time) header.num_bones

end decoder

/-! ## Observations on a trace -/

section observers
variable {F : Type}

/-- The rotations that the trace writes for bone `bone_index`, in order. -/
def rotation_writes (trace : List (Event F)) (bone_index : Nat) : List (Quat_32 F) :=
  trace.filterMap fun e =>
    match e with
    | Event.write_bone_rotation i q => if i = bone_index then some q else none
    | _ => none

/-- The translations that the trace writes for bone `bone_index`, in order. -/
def translation_writes (trace : List (Event F)) (bone_index : Nat) : List (Vector4_32 F) :=
  trace.filterMap fun e =>
    match e with
    | Event.write_bone_translation i v => if i = bone_index then some v else none
    | _ => none

/-- A call of the output writer without its value: which operation, for which bone. -/
inductive SinkCall where
  | write_bone_rotation (bone_index : Nat) : SinkCall
  | write_bone_translation (bone_index : Nat) : SinkCall
deriving DecidableEq

/-- The calls of the output writer in a trace, in order. -/
def sink_calls (trace : List (Event F)) : List SinkCall :=
  trace.filterMap fun e =>
    match e with
    | Event.write_bone_rotation i _ => some (SinkCall.write_bone_rotation i)
    | Event.write_bone_translation i _ => some (SinkCall.write_bone_translation i)
    | _ => none

/-- The offsets at which a trace tests the default bitset, in order. -/
def default_tests (trace : List (Event F)) : List Nat :=
  trace.filterMap fun e =>
    match e with
    | Event.bitset_test_default offset => some offset
    | _ => none

/-- The offsets at which a trace tests the constant bitset, in order. -/
def constant_tests (trace : List (Event F)) : List Nat :=
  trace.filterMap fun e =>
    match e with
    | Event.bitset_test_constant offset => some offset
    | _ => none

/-- The tests of the default bitset (left, with the offset tested) and the calls of the output
writer (right) of a trace, interleaved in program order. -/
def default_tests_and_sink_calls (trace : List (Event F)) : List (Nat ⊕ SinkCall) :=
  trace.filterMap fun e =>
    match e with
    | Event.bitset_test_default offset => some (Sum.inl offset)
    | Event.bitset_test_constant _ => none
    | Event.write_bone_rotation i _ => some (Sum.inr (SinkCall.write_bone_rotation i))
    | Event.write_bone_translation i _ => some (Sum.inr (SinkCall.write_bone_translation i))

/-- A test of one bit: of which bitset, at which offset. -/
inductive BitTest where
  | default_tracks (offset : Nat) : BitTest
  | constant_tracks (offset : Nat) : BitTest
deriving DecidableEq

/-- The bit tests of a trace, on both bitsets, in program order. -/
def bit_tests (trace : List (Event F)) : List BitTest :=
  trace.filterMap fun e =>
    match e with
    | Event.bitset_test_default offset => some (BitTest.default_tracks offset)
    | Event.bitset_test_constant offset => some (BitTest.constant_tracks offset)
    | _ => none

end observers

/-! ## Track modes and track counts, as the format defines them -/

section modes
variable {F : Type}

/-- The bitset word count that the decoder computes for a header (line 74). -/
def tracks_bitset_size (header : FullPrecisionHeader F) : Nat :=
  bitset_size header.num_bones FullPrecisionConstants.NUM_TRACKS_PER_BONE
    FullPrecisionConstants.BITSET_WIDTH

/-- Bit `track` of the default-tracks bitset. -/
def default_bit (ext : Externals F) (header : FullPrecisionHeader F) (track : Nat) : Bool :=
  ext.bitset_test header.default_tracks_bitset (tracks_bitset_size header) track

/-- Bit `track` of the constant-tracks bitset. -/
def constant_bit (ext : Externals F) (header : FullPrecisionHeader F) (track : Nat) : Bool :=
  ext.bitset_test header.constant_tracks_bitset (tracks_bitset_size header) track

/-- A constant track: default bit clear, constant bit set. -/
def is_constant_track (ext : Externals F) (header : FullPrecisionHeader F) (track : Nat) :
    Bool :=
  !default_bit ext header track && constant_bit ext header track

/-- An animated track: default bit clear, constant bit clear. -/
def is_animated_track (ext : Externals F) (header : FullPrecisionHeader F) (track : Nat) :
    Bool :=
  !default_bit ext header track && !constant_bit ext header track

/-- Number of bones below `n` whose rotation track (track `2 * bone`) is constant. -/
def num_constant_rotations_before (ext : Externals F) (header : FullPrecisionHeader F)
    (n : Nat) : Nat :=
  (List.range n).countP fun j => is_constant_track ext header (2 * j)

/-- Number of bones below `n` whose translation track (track `2 * bone + 1`) is constant. -/
def num_constant_translations_before (ext : Externals F) (header : FullPrecisionHeader F)
    (n : Nat) : Nat :=
  (List.range n).countP fun j => is_constant_track ext header (2 * j + 1)

/-- Number of bones below `n` whose rotation track is animated. -/
def num_animated_rotations_before (ext : Externals F) (header : FullPrecisionHeader F)
    (n : Nat) : Nat :=
  (List.range n).countP fun j => is_animated_track ext header (2 * j)

/-- Number of bones below `n` whose translation track is animated. -/
def num_animated_translations_before (ext : Externals F) (header : FullPrecisionHeader F)
    (n : Nat) : Nat :=
  (List.range n).countP fun j => is_animated_track ext header (2 * j + 1)

/-- Float offset in the constant stream of the rotation track of bone `b`: 4 floats for each
earlier constant rotation track and 3 for each earlier constant translation track. -/
def constant_rotation_offset (ext : Externals F) (header : FullPrecisionHeader F) (b : Nat) :
    Nat :=
  4 * num_constant_rotations_before ext header b +
    3 * num_constant_translations_before ext header b

/-- Float offset in the constant stream of the translation track of bone `b`; the rotation
track of bone `b` itself comes earlier. -/
def constant_translation_offset (ext : Externals F) (header : FullPrecisionHeader F)
    (b : Nat) : Nat :=
  4 * num_constant_rotations_before ext header (b + 1) +
    3 * num_constant_translations_before ext header b

/-- Float offset inside one keyframe of the rotation track of bone `b`. -/
def animated_rotation_offset (ext : Externals F) (header : FullPrecisionHeader F) (b : Nat) :
    Nat :=
  4 * num_animated_rotations_before ext header b +
    3 * num_animated_translations_before ext header b

/-- Float offset inside one keyframe of the translation track of bone `b`. -/
def animated_translation_offset (ext : Externals F) (header : FullPrecisionHeader F)
    (b : Nat) : Nat :=
  4 * num_animated_rotations_before ext header (b + 1) +
    3 * num_animated_translations_before ext header b

/-- Float offset in the animated stream at which keyframe `key_frame` starts (lines 88-89):
`key_frame * num_animated_floats_per_key_frame` in `uint32_t`. -/
def key_frame_offset (header : FullPrecisionHeader F) (key_frame : Nat) : Nat :=
  u32_mul key_frame (num_animated_floats_per_key_frame header)

/-- The rotation stored for bone `b` in keyframe `key_frame` of the animated stream. -/
def stored_rotation (ext : Externals F) (header : FullPrecisionHeader F) (key_frame b : Nat) :
    Quat_32 F :=
  quat_unaligned_load header.track_data
    (key_frame_offset header key_frame + animated_rotation_offset ext header b)

/-- The translation stored for bone `b` in keyframe `key_frame` of the animated stream. -/
def stored_translation (ext : Externals F) (header : FullPrecisionHeader F)
    (key_frame b : Nat) : Vector4_32 F :=
  vector_unaligned_load3 header.track_data
    (key_frame_offset header key_frame + animated_translation_offset ext header b)

/-- The bit tests that the mode resolution of one track needs: the default bit of the track,
and the constant bit of the same track when the default bit is clear. -/
def track_bit_tests (ext : Externals F) (header : FullPrecisionHeader F) (track : Nat) :
    List BitTest :=
  if default_bit ext header track then [BitTest.default_tracks track]
  else [BitTest.default_tracks track, BitTest.constant_tracks track]

end modes

/-! ## Values that one track step writes -/

section values
variable {F : Type} [Add F] [Sub F] [Mul F] [Zero F] [One F]

/-- The rotation that lines 93-116 compute from the locals `s`. -/
def rotation_value (ext : Externals F) (header : FullPrecisionHeader F) (size : Nat)
    (interpolation_alpha : F) (s : DecodeState F) : Quat_32 F :=
  if ext.bitset_test header.default_tracks_bitset size s.default_track_offset then
    quat_32_identity
  else if ext.bitset_test header.constant_tracks_bitset size s.constant_track_offset then
    quat_unaligned_load header.constant_track_data s.constant_track_data
  else
    quat_lerp (quat_unaligned_load header.track_data s.key_frame_data0)
      (quat_unaligned_load header.track_data s.key_frame_data1) interpolation_alpha

/-- The translation that lines 123-146 compute from the locals `s`. -/
def translation_value (ext : Externals F) (header : FullPrecisionHeader F) (size : Nat)
    (interpolation_alpha : F) (s : DecodeState F) : Vector4_32 F :=
  if ext.bitset_test header.default_tracks_bitset size s.default_track_offset then
    vector_32_zero
  else if ext.bitset_test header.constant_tracks_bitset size s.constant_track_offset then
    vector_unaligned_load3 header.constant_track_data s.constant_track_data
  else
    vector_lerp (vector_unaligned_load3 header.track_data s.key_frame_data0)
      (vector_unaligned_load3 header.track_data s.key_frame_data1) interpolation_alpha

end values

/-! ## Lemmas on one track step -/

/-! ## The locals at each track of the walk -/

section walk
variable {F : Type} [Add F] [Sub F] [Mul F] [Zero F] [One F] [NatCast F] [Div F]

/-- The locals of `full_precision_decoder` when the loop reaches bone `b`, before its rotation
track is decoded. -/
def state_before_rotation (ext : Externals F) (header : FullPrecisionHeader F)
    (sample_time : F) (b : Nat) : DecodeState F :=
  decode_bones ext header (tracks_bitset_size header)
    (interpolation_keys ext header sample_time).interpolation_alpha
    (initial_state ext header sample_time) b

/-- The locals of `full_precision_decoder` in the iteration of bone `b`, after its rotation
track and before its translation track is decoded. -/
def state_before_translation (ext : Externals F) (header : FullPrecisionHeader F)
    (sample_time : F) (b : Nat) : DecodeState F :=
  decode_rotation_track ext header (tracks_bitset_size header)
    (interpolation_keys ext header sample_time).interpolation_alpha b
    (state_before_rotation ext header sample_time b)

end walk

/-! ## Format helpers (`transform_decompression_context.h`) -/

/-- The enumerators of `rotation_format8` that the header names. -/
inductive rotation_format8 where
  | quatf_full : rotation_format8
  | quatf_drop_w_full : rotation_format8
  | quatf_drop_w_variable : rotation_format8
deriving DecidableEq

/-- The enumerators of `vector_format8` that the header names. -/
inductive vector_format8 where
  | vector3f_full : vector_format8
  | vector3f_variable : vector_format8
deriving DecidableEq

/-- Modelled from the spec: `range_reduction_flags8` (declared in
`acl/core/range_reduction_types.h`, not part of the sources at hand), one flag per track
category. -/
structure range_reduction_flags8 where
  rotations : Bool
  translations : Bool
  scales : Bool
deriving DecidableEq

/-- The flag `range_reduction_flags8::translations`. -/
def range_reduction_flags8.translations_flag : range_reduction_flags8 := ⟨false, true, false⟩

/-- The flag `range_reduction_flags8::scales`. -/
def range_reduction_flags8.scales_flag : range_reduction_flags8 := ⟨false, false, true⟩

/-- Modelled from the spec: `ptr_offset32<T>` of `acl/core/ptr_offset.h` (`PtrOffset32<T>` in
`test_ptr_offset.cpp`; the header itself is not part of the sources at hand): an offset
relative to a base pointer that either is the "no value" marker or holds a 32-bit value. -/
inductive ptr_offset32 where
  | invalid : ptr_offset32
  | offset (value : Nat) : ptr_offset32
deriving DecidableEq

namespace ptr_offset32

/-- Modelled from the spec: the constructor from `InvalidPtrOffset()`. -/
def from_invalid_marker : ptr_offset32 := invalid

/-- Modelled from the spec: the constructor from an integer, stored in 32 bits. -/
def from_value (value : Nat) : ptr_offset32 := offset (u32 value)

/-- Modelled from the spec: `is_valid()`, false exactly for the "no value" marker. -/
def is_valid : ptr_offset32 → Bool
  | invalid => false
  | offset _ => true

/-- Modelled from the spec: the conversion to `uint32_t`; the marker holds no value. -/
def to_uint32 : ptr_offset32 → Option Nat
  | invalid => none
  | offset value => some value

/-- Modelled from the spec: `add_to(ptr)`, the address `ptr + offset`; the marker must never be
added to a base pointer, which is the result `none`. -/
def add_to : ptr_offset32 → Nat → Option Nat
  | invalid, _ => none
  | offset value, ptr => some (ptr + value)

/-- Modelled from the spec: `safe_add_to(ptr)`, the addition that checks validity first; for
the marker the model yields the null pointer. -/
def safe_add_to : ptr_offset32 → Nat → Nat
  | invalid, _ => 0
  | offset value, ptr => ptr + value

end ptr_offset32

/-- A `bitset_description`: the number of 32-bit words of a bitset. -/
structure bitset_description where
  size : Nat
deriving DecidableEq

/-- The struct `persistent_transform_decompression_context_v0`, fields in declared order.
Pointers are addresses, `nullptr` is `0`; the two entries of an array of two are the fields
`_0` and `_1`; the padding arrays hold no data and are left out. -/
structure persistent_transform_decompression_context_v0 (F : Type) where
  tracks : Nat
  db : Nat
  constant_tracks_bitset : ptr_offset32
  constant_track_data : ptr_offset32
  default_tracks_bitset : ptr_offset32
  clip_range_data : ptr_offset32
  clip_duration : F
  bitset_desc : bitset_description
  clip_hash : Nat
  rotation_format : rotation_format8
  translation_format : vector_format8
  scale_format : vector_format8
  range_reduction : range_reduction_flags8
  num_rotation_components : Nat
  has_segments : Nat
  sample_time : F
  format_per_track_data_0 : Nat
  format_per_track_data_1 : Nat
  segment_range_data_0 : Nat
  segment_range_data_1 : Nat
  animated_track_data_0 : Nat
  animated_track_data_1 : Nat
  key_frame_bit_offsets_0 : Nat
  key_frame_bit_offsets_1 : Nat
  interpolation_alpha : F

namespace persistent_transform_decompression_context_v0
variable {F : Type}

/-- The member `get_compressed_tracks()`. -/
def get_compressed_tracks (context : persistent_transform_decompression_context_v0 F) : Nat :=
  context.tracks

/-- The member `is_initialized()`: `tracks != nullptr`. -/
def is_initialized (context : persistent_transform_decompression_context_v0 F) : Bool :=
  context.tracks != 0

/-- The member `reset()`: `tracks = nullptr`. -/
def reset (context : persistent_transform_decompression_context_v0 F) :
    persistent_transform_decompression_context_v0 F :=
  { context with tracks := 0 }

end persistent_transform_decompression_context_v0

/-- A `decompression_settings_type`: the three static predicates the header calls. -/
structure decompression_settings where
  is_rotation_format_supported : rotation_format8 → Bool
  is_translation_format_supported : vector_format8 → Bool
  is_scale_format_supported : vector_format8 → Bool

/-- A `decompression_settings_adapter_type`: the three static members of an adapter. -/
structure decompression_settings_adapter (F : Type) where
  get_range_reduction_flag : range_reduction_flags8
  get_vector_format : persistent_transform_decompression_context_v0 F → vector_format8
  is_vector_format_supported : vector_format8 → Bool

/-- The adapter `translation_decompression_settings_adapter<decompression_settings_type>`. -/
def translation_decompression_settings_adapter (F : Type) (settings : decompression_settings) :
    decompression_settings_adapter F where
  get_range_reduction_flag := range_reduction_flags8.translations_flag
  get_vector_format := fun context => context.translation_format
  is_vector_format_supported := fun format => settings.is_translation_format_supported format

/-- The adapter `scale_decompression_settings_adapter<decompression_settings_type>`. -/
def scale_decompression_settings_adapter (F : Type) (settings : decompression_settings) :
    decompression_settings_adapter F where
  get_range_reduction_flag := range_reduction_flags8.scales_flag
  get_vector_format := fun context => context.scale_format
  is_vector_format_supported := fun format => settings.is_scale_format_supported format

/-- Conversion of a `bool` to `int` in a sum. -/
def bool_to_int (b : Bool) : Int := if b then 1 else 0

/-- The function `num_supported_rotation_formats<decompression_settings_type>()`. -/
def num_supported_rotation_formats (settings : decompression_settings) : Int :=
  bool_to_int (settings.is_rotation_format_supported rotation_format8.quatf_full)
    + bool_to_int (settings.is_rotation_format_supported rotation_format8.quatf_drop_w_full)
    + bool_to_int (settings.is_rotation_format_supported rotation_format8.quatf_drop_w_variable)

/-- The function `get_rotation_format<decompression_settings_type>(format)`. -/
def get_rotation_format (settings : decompression_settings) (format : rotation_format8) :
    rotation_format8 :=
  if num_supported_rotation_formats settings > 1 then format
  else if settings.is_rotation_format_supported rotation_format8.quatf_full then
    rotation_format8.quatf_full
  else if settings.is_rotation_format_supported rotation_format8.quatf_drop_w_full then
    rotation_format8.quatf_drop_w_full
  else rotation_format8.quatf_drop_w_variable

/-- The function `num_supported_vector_formats<decompression_settings_adapter_type>()`. -/
def num_supported_vector_formats {F : Type} (adapter : decompression_settings_adapter F) :
    Int :=
  bool_to_int (adapter.is_vector_format_supported vector_format8.vector3f_full)
    + bool_to_int (adapter.is_vector_format_supported vector_format8.vector3f_variable)

/-- The function `get_vector_format<decompression_settings_adapter_type>(format)`. -/
def get_vector_format {F : Type} (adapter : decompression_settings_adapter F)
    (format : vector_format8) : vector_format8 :=
  if num_supported_vector_formats adapter > 1 then format
  else if adapter.is_vector_format_supported vector_format8.vector3f_full then
    vector_format8.vector3f_full
  else vector_format8.vector3f_variable

/-! ## A concrete clip: the scenario of the specification -/

/-- Modelled from the spec: `bitset_test` of `acl/core/utils.h` (not part of the sources at
hand): bit `offset % 32` of word `offset / 32`, index 0 being the least significant bit of
word 0.  The word count `size` only bounds the legal offsets. -/
def bitset_test (bitset : Nat → Nat) (_size : Nat) (offset : Nat) : Bool :=
  Nat.testBit (bitset (offset / FullPrecisionConstants.BITSET_WIDTH))
    (offset % FullPrecisionConstants.BITSET_WIDTH)

/-- Modelled from the spec: `calculate_interpolation_keys` of `acl/core/utils.h` (not part of
the sources at hand), over the rationals: clamped at both ends of the clip, otherwise the two
samples around the query time and the fractional position between them. -/
def calculate_interpolation_keys (num_samples : Nat) (duration sample_time : ℚ) :
    InterpolationKeys ℚ :=
  if duration ≤ sample_time then ⟨num_samples - 1, num_samples - 1, 0⟩
  else if sample_time ≤ 0 then ⟨0, 0, 0⟩
  else
    let sample_position : ℚ := sample_time / duration * ((num_samples - 1 : Nat) : ℚ)
    ⟨⌊sample_position⌋₊, ⌊sample_position⌋₊ + 1,
      sample_position - (⌊sample_position⌋₊ : ℚ)⟩

/-- The two external helpers, as the specification describes them. -/
def spec_externals : Externals ℚ := ⟨calculate_interpolation_keys, bitset_test⟩

/-- The clip of the concrete scenario: 2 bones, 2 samples at 30 samples per second.  Both
tracks of bone 0 are default (the constant bit of its rotation is set all the same), the
rotation of bone 1 is animated, from the identity to a half turn about Y, and its translation
is the constant `(1, 2, 3)`. -/
def scenario_header : FullPrecisionHeader ℚ where
  num_bones := 2
  num_samples := 2
  sample_rate := 30
  num_animated_rotation_tracks := 1
  num_animated_translation_tracks := 0
  default_tracks_bitset := fun i => [3].getD i 0
  constant_tracks_bitset := fun i => [9].getD i 0
  constant_track_data := fun i => [1, 2, 3].getD i 0
  track_data := fun i => [0, 0, 0, 1, 0, 1, 0, 0].getD i 0

/-- A clip with every track mode: 3 bones, 3 samples at 30 samples per second.  Bone 0 has a
constant rotation and an animated translation, both tracks of bone 1 are default (the
constant bit of its translation is set all the same), bone 2 has an animated rotation and
the constant translation `(5, 6, 7)`.  One keyframe holds 7 floats: the translation of bone 0,
then the rotation of bone 2. -/
def mixed_header : FullPrecisionHeader ℚ where
  num_bones := 3
  num_samples := 3
  sample_rate := 30
  num_animated_rotation_tracks := 1
  num_animated_translation_tracks := 1
  default_tracks_bitset := fun i => [12].getD i 0
  constant_tracks_bitset := fun i => [41].getD i 0
  constant_track_data := fun i => [0, 0, 1, 0, 5, 6, 7].getD i 0
  track_data := fun i =>
    [1, 1, 1, 0, 0, 0, 1, 2, 3, 4, 0, 1, 0, 0, 4, 6, 8, 1, 0, 0, 0].getD i 0

/-- Decompression settings that support the single rotation format `quatf_drop_w_variable`
and the single vector format `vector3f_variable`. -/
def variable_only_settings : decompression_settings where
  is_rotation_format_supported := fun format => format == rotation_format8.quatf_drop_w_variable
  is_translation_format_supported := fun format => format == vector_format8.vector3f_variable
  is_scale_format_supported := fun format => format == vector_format8.vector3f_variable

/-- Decompression settings that support every rotation format and every vector format. -/
def all_formats_settings : decompression_settings where
  is_rotation_format_supported := fun _ => true
  is_translation_format_supported := fun _ => true
  is_scale_format_supported := fun _ => true

/-- Decompression settings that support no format at all. -/
def no_format_settings : decompression_settings where
  is_rotation_format_supported := fun _ => false
  is_translation_format_supported := fun _ => false
  is_scale_format_supported := fun _ => false

/-! ## The layout of the persistent context -/

/-- One member of a struct, for its layout: size and alignment in bytes. -/
structure member_layout where
  size : Nat
  alignment : Nat
deriving DecidableEq

/-- The next multiple of `alignment` at or after `offset`. -/
def align_to (offset alignment : Nat) : Nat :=
  (offset + alignment - 1) / alignment * alignment

/-- The offsets of members laid out in declared order from `cursor`, each at the next multiple
of its alignment. -/
def member_offsets : Nat → List member_layout → List Nat
  | _, [] => []
  | cursor, m :: rest =>
    align_to cursor m.alignment ::
      member_offsets (align_to cursor m.alignment + m.size) rest

/-- The end of the last member of a layout that starts at `cursor`. -/
def members_end : Nat → List member_layout → Nat
  | cursor, [] => cursor
  | cursor, m :: rest => members_end (align_to cursor m.alignment + m.size) rest

/-- The members of `persistent_transform_decompression_context_v0` in declared order, for a
pointer of `pointer_size` bytes: two pointers, four `ptr_offset32`, `clip_duration`,
`bitset_desc`, `clip_hash`, the three formats, `range_reduction`, `num_rotation_components`,
`has_segments`, `padding0[2]`, `sample_time`, three arrays of two pointers,
`key_frame_bit_offsets[2]`, `interpolation_alpha` and
`padding1[sizeof(void*) == 4 ? 44 : 12]`. -/
def context_v0_members (pointer_size : Nat) : List member_layout :=
  [⟨pointer_size, pointer_size⟩, ⟨pointer_size, pointer_size⟩,
    ⟨4, 4⟩, ⟨4, 4⟩, ⟨4, 4⟩, ⟨4, 4⟩,
    ⟨4, 4⟩, ⟨4, 4⟩, ⟨4, 4⟩,
    ⟨1, 1⟩, ⟨1, 1⟩, ⟨1, 1⟩, ⟨1, 1⟩, ⟨1, 1⟩, ⟨1, 1⟩,
    ⟨2, 1⟩, ⟨4, 4⟩,
    ⟨2 * pointer_size, pointer_size⟩, ⟨2 * pointer_size, pointer_size⟩,
    ⟨2 * pointer_size, pointer_size⟩,
    ⟨8, 4⟩, ⟨4, 4⟩,
    ⟨if pointer_size = 4 then 44 else 12, 1⟩]

/-- The offsets in the left column of the comments of the struct (pointers of 4 bytes). -/
def context_v0_commented_offsets_32 : List Nat :=
  [0, 4, 8, 12, 16, 20, 24, 28, 32, 36, 37, 38, 39, 40, 41, 42, 44, 48, 56, 64, 72, 80, 84]

/-- The offsets in the right column of the comments of the struct (pointers of 8 bytes). -/
def context_v0_commented_offsets_64 : List Nat :=
  [0, 8, 16, 20, 24, 28, 32, 36, 40, 44, 45, 46, 47, 48, 49, 50, 52, 56, 72, 88, 104, 112,
    116]

/-- The alignment `alignas(64)` of the struct. -/
def context_v0_alignment : Nat := 64

/-- The size of the struct: the end of its last member, rounded up to its alignment. -/
def context_v0_sizeof (pointer_size : Nat) : Nat :=
  align_to (members_end 0 (context_v0_members pointer_size)) context_v0_alignment

/-- A bound context, for the examples. -/
def sample_context : persistent_transform_decompression_context_v0 ℚ where
  tracks := 4096
  db := 0
  constant_tracks_bitset := ptr_offset32.from_value 64
  constant_track_data := ptr_offset32.from_value 96
  default_tracks_bitset := ptr_offset32.from_value 32
  clip_range_data := ptr_offset32.from_invalid_marker
  clip_duration := 1 / 30
  bitset_desc := ⟨1⟩
  clip_hash := 305419896
  rotation_format := rotation_format8.quatf_drop_w_variable
  translation_format := vector_format8.vector3f_variable
  scale_format := vector_format8.vector3f_full
  range_reduction := ⟨true, true, false⟩
  num_rotation_components := 3
  has_segments := 0
  sample_time := 1 / 60
  format_per_track_data_0 := 4224
  format_per_track_data_1 := 4224
  segment_range_data_0 := 4288
  segment_range_data_1 := 4288
  animated_track_data_0 := 4352
  animated_track_data_1 := 4352
  key_frame_bit_offsets_0 := 0
  key_frame_bit_offsets_1 := 96
  interpolation_alpha := 1 / 2

set_option linter.unusedSectionVars false

section step_lemmas
variable {F : Type} [Add F] [Sub F] [Mul F] [Zero F] [One F]
variable (ext : Externals F) (header : FullPrecisionHeader F) (size : Nat) (alpha : F)

theorem rotation_track_rotation_writes (b j : Nat) (s : DecodeState F) :
    rotation_writes (decode_rotation_track ext header size alpha b s).trace j =
      rotation_writes s.trace j ++
        (if b = j then [rotation_value ext header size alpha s] else []) := by
  unfold decode_rotation_track rotation_value rotation_writes
  split_ifs <;> simp [List.filterMap_append, List.filterMap_cons, *]

theorem rotation_track_translation_writes (b j : Nat) (s : DecodeState F) :
    translation_writes (decode_rotation_track ext header size alpha b s).trace j =
      translation_writes s.trace j := by
  unfold decode_rotation_track translation_writes
  split_ifs <;> simp [List.filterMap_append, List.filterMap_cons]

theorem translation_track_translation_writes (b j : Nat) (s : DecodeState F) :
    translation_writes (decode_translation_track ext header size alpha b s).trace j =
      translation_writes s.trace j ++
        (if b = j then [translation_value ext header size alpha s] else []) := by
  unfold decode_translation_track translation_value translation_writes
  split_ifs <;> simp [List.filterMap_append, List.filterMap_cons, *]

theorem translation_track_rotation_writes (b j : Nat) (s : DecodeState F) :
    rotation_writes (decode_translation_track ext header size alpha b s).trace j =
      rotation_writes s.trace j := by
  unfold decode_translation_track rotation_writes
  split_ifs <;> simp [List.filterMap_append, List.filterMap_cons]

theorem rotation_track_sink_calls (b : Nat) (s : DecodeState F) :
    sink_calls (decode_rotation_track ext header size alpha b s).trace =
      sink_calls s.trace ++ [SinkCall.write_bone_rotation b] := by
  unfold decode_rotation_track sink_calls
  split_ifs <;> simp [List.filterMap_append, List.filterMap_cons]

theorem translation_track_sink_calls (b : Nat) (s : DecodeState F) :
    sink_calls (decode_translation_track ext header size alpha b s).trace =
      sink_calls s.trace ++ [SinkCall.write_bone_translation b] := by
  unfold decode_translation_track sink_calls
  split_ifs <;> simp [List.filterMap_append, List.filterMap_cons]

theorem rotation_track_default_tests (b : Nat) (s : DecodeState F) :
    default_tests (decode_rotation_track ext header size alpha b s).trace =
      default_tests s.trace ++ [s.default_track_offset] := by
  unfold decode_rotation_track default_tests
  split_ifs <;> simp [List.filterMap_append, List.filterMap_cons]

theorem translation_track_default_tests (b : Nat) (s : DecodeState F) :
    default_tests (decode_translation_track ext header size alpha b s).trace =
      default_tests s.trace ++ [s.default_track_offset] := by
  unfold decode_translation_track default_tests
  split_ifs <;> simp [List.filterMap_append, List.filterMap_cons]

theorem rotation_track_default_tests_and_sink_calls (b : Nat) (s : DecodeState F) :
    default_tests_and_sink_calls (decode_rotation_track ext header size alpha b s).trace =
      default_tests_and_sink_calls s.trace ++
        [Sum.inl s.default_track_offset, Sum.inr (SinkCall.write_bone_rotation b)] := by
  unfold decode_rotation_track default_tests_and_sink_calls
  split_ifs <;> simp [List.filterMap_append, List.filterMap_cons]

theorem translation_track_default_tests_and_sink_calls (b : Nat) (s : DecodeState F) :
    default_tests_and_sink_calls (decode_translation_track ext header size alpha b s).trace =
      default_tests_and_sink_calls s.trace ++
        [Sum.inl s.default_track_offset, Sum.inr (SinkCall.write_bone_translation b)] := by
  unfold decode_translation_track default_tests_and_sink_calls
  split_ifs <;> simp [List.filterMap_append, List.filterMap_cons]

theorem rotation_track_default_track_offset (b : Nat) (s : DecodeState F) :
    (decode_rotation_track ext header size alpha b s).default_track_offset =
      u32 (s.default_track_offset + 1) := by
  unfold decode_rotation_track
  split_ifs <;> rfl

theorem rotation_track_constant_track_offset (b : Nat) (s : DecodeState F) :
    (decode_rotation_track ext header size alpha b s).constant_track_offset =
      u32 (s.constant_track_offset + 1) := by
  unfold decode_rotation_track
  split_ifs <;> rfl

theorem translation_track_default_track_offset (b : Nat) (s : DecodeState F) :
    (decode_translation_track ext header size alpha b s).default_track_offset =
      u32 (s.default_track_offset + 1) := by
  unfold decode_translation_track
  split_ifs <;> rfl

theorem translation_track_constant_track_offset (b : Nat) (s : DecodeState F) :
    (decode_translation_track ext header size alpha b s).constant_track_offset =
      u32 (s.constant_track_offset + 1) := by
  unfold decode_translation_track
  split_ifs <;> rfl

theorem rotation_track_constant_track_data (b : Nat) (s : DecodeState F) :
    (decode_rotation_track ext header size alpha b s).constant_track_data =
      s.constant_track_data +
        (if (!ext.bitset_test header.default_tracks_bitset size s.default_track_offset &&
            ext.bitset_test header.constant_tracks_bitset size s.constant_track_offset)
          then 4 else 0) := by
  unfold decode_rotation_track
  split_ifs <;> simp_all

theorem rotation_track_key_frame_data (b : Nat) (s : DecodeState F) :
    (decode_rotation_track ext header size alpha b s).key_frame_data0 =
      s.key_frame_data0 +
        (if (!ext.bitset_test header.default_tracks_bitset size s.default_track_offset &&
            !ext.bitset_test header.constant_tracks_bitset size s.constant_track_offset)
          then 4 else 0) ∧
    (decode_rotation_track ext header size alpha b s).key_frame_data1 =
      s.key_frame_data1 +
        (if (!ext.bitset_test header.default_tracks_bitset size s.default_track_offset &&
            !ext.bitset_test header.constant_tracks_bitset size s.constant_track_offset)
          then 4 else 0) := by
  unfold decode_rotation_track
  split_ifs <;> simp_all

theorem translation_track_constant_track_data (b : Nat) (s : DecodeState F) :
    (decode_translation_track ext header size alpha b s).constant_track_data =
      s.constant_track_data +
        (if (!ext.bitset_test header.default_tracks_bitset size s.default_track_offset &&
            ext.bitset_test header.constant_tracks_bitset size s.constant_track_offset)
          then 3 else 0) := by
  unfold decode_translation_track
  split_ifs <;> simp_all

theorem translation_track_key_frame_data (b : Nat) (s : DecodeState F) :
    (decode_translation_track ext header size alpha b s).key_frame_data0 =
      s.key_frame_data0 +
        (if (!ext.bitset_test header.default_tracks_bitset size s.default_track_offset &&
            !ext.bitset_test header.constant_tracks_bitset size s.constant_track_offset)
          then 3 else 0) ∧
    (decode_translation_track ext header size alpha b s).key_frame_data1 =
      s.key_frame_data1 +
        (if (!ext.bitset_test header.default_tracks_bitset size s.default_track_offset &&
            !ext.bitset_test header.constant_tracks_bitset size s.constant_track_offset)
          then 3 else 0) := by
  unfold decode_translation_track
  split_ifs <;> simp_all

end step_lemmas

/-! ## Lemmas on the loop -/

section loop_lemmas
variable {F : Type} [Add F] [Sub F] [Mul F] [Zero F] [One F]
variable (ext : Externals F) (header : FullPrecisionHeader F) (size : Nat) (alpha : F)

theorem u32_of_lt {n : Nat} (h : n < 4294967296) : u32 n = n :=
  Nat.mod_eq_of_lt h

theorem u32_succ_u32 (n : Nat) : u32 (u32 n + 1) = u32 (n + 1) := by
  unfold u32
  omega

theorem decode_bones_zero (s : DecodeState F) :
    decode_bones ext header size alpha s 0 = s := rfl

theorem decode_bones_succ (s : DecodeState F) (n : Nat) :
    decode_bones ext header size alpha s (n + 1) =
      decode_bone ext header size alpha (decode_bones ext header size alpha s n) n := by
  unfold decode_bones
  rw [List.range_succ, List.foldl_append]
  rfl

theorem countP_range_succ (p : Nat → Bool) (n : Nat) :
    (List.range (n + 1)).countP p = (List.range n).countP p + (if p n then 1 else 0) := by
  rw [List.range_succ, List.countP_append]
  by_cases h : p n <;> simp [h]

theorem decode_bones_offsets (s : DecodeState F) (h0 : s.default_track_offset = 0)
    (h1 : s.constant_track_offset = 0) (n : Nat) :
    (decode_bones ext header size alpha s n).default_track_offset = u32 (2 * n) ∧
      (decode_bones ext header size alpha s n).constant_track_offset = u32 (2 * n) := by
  induction n with
  | zero => exact ⟨h0, h1⟩
  | succ n ih =>
    rw [decode_bones_succ]
    unfold decode_bone
    rw [translation_track_default_track_offset, translation_track_constant_track_offset,
      rotation_track_default_track_offset, rotation_track_constant_track_offset,
      ih.1, ih.2]
    unfold u32
    omega

theorem decode_bones_cursors (s : DecodeState F) (h0 : s.default_track_offset = 0)
    (h1 : s.constant_track_offset = 0) (n : Nat) (hn : n ≤ 2147483648) :
    (decode_bones ext header (tracks_bitset_size header) alpha s n).constant_track_data =
        s.constant_track_data + constant_rotation_offset ext header n ∧
      (decode_bones ext header (tracks_bitset_size header) alpha s n).key_frame_data0 =
        s.key_frame_data0 + animated_rotation_offset ext header n ∧
      (decode_bones ext header (tracks_bitset_size header) alpha s n).key_frame_data1 =
        s.key_frame_data1 + animated_rotation_offset ext header n := by
  induction n with
  | zero =>
    simp [decode_bones_zero, constant_rotation_offset, animated_rotation_offset,
      num_constant_rotations_before, num_constant_translations_before,
      num_animated_rotations_before, num_animated_translations_before]
  | succ n ih =>
    have ih := ih (by omega)
    have hoff := decode_bones_offsets ext header (tracks_bitset_size header) alpha s h0 h1 n
    have e0 : u32 (2 * n) = 2 * n := u32_of_lt (by omega)
    have e1 : u32 (2 * n + 1) = 2 * n + 1 := u32_of_lt (by omega)
    rw [e0] at hoff
    rw [decode_bones_succ]
    unfold decode_bone
    rw [translation_track_constant_track_data,
      (translation_track_key_frame_data ext header _ alpha n _).1,
      (translation_track_key_frame_data ext header _ alpha n _).2,
      rotation_track_constant_track_data,
      (rotation_track_key_frame_data ext header _ alpha n _).1,
      (rotation_track_key_frame_data ext header _ alpha n _).2,
      rotation_track_default_track_offset, rotation_track_constant_track_offset,
      hoff.1, hoff.2, e1, ih.1, ih.2.1, ih.2.2]
    simp only [constant_rotation_offset, animated_rotation_offset,
      num_constant_rotations_before, num_constant_translations_before,
      num_animated_rotations_before, num_animated_translations_before,
      countP_range_succ, is_constant_track, is_animated_track, default_bit, constant_bit]
    refine ⟨?_, ?_, ?_⟩ <;> split_ifs <;> omega

theorem decode_bones_rotation_writes (s : DecodeState F) (n j : Nat) :
    rotation_writes (decode_bones ext header size alpha s n).trace j =
      rotation_writes s.trace j ++
        (if j < n then
          [rotation_value ext header size alpha (decode_bones ext header size alpha s j)]
        else []) := by
  induction n with
  | zero => simp [decode_bones_zero]
  | succ n ih =>
    rw [decode_bones_succ]
    unfold decode_bone
    rw [translation_track_rotation_writes, rotation_track_rotation_writes, ih]
    rcases Nat.lt_trichotomy j n with h | h | h
    · have h1 : j < n + 1 := by omega
      have h2 : ¬ n = j := by omega
      simp [h, h1, h2]
    · subst h
      simp
    · have h1 : ¬ j < n + 1 := by omega
      have h2 : ¬ n = j := by omega
      have h3 : ¬ j < n := by omega
      simp [h1, h2, h3]

theorem decode_bones_translation_writes (s : DecodeState F) (n j : Nat) :
    translation_writes (decode_bones ext header size alpha s n).trace j =
      translation_writes s.trace j ++
        (if j < n then
          [translation_value ext header size alpha
            (decode_rotation_track ext header size alpha j
              (decode_bones ext header size alpha s j))]
        else []) := by
  induction n with
  | zero => simp [decode_bones_zero]
  | succ n ih =>
    rw [decode_bones_succ]
    unfold decode_bone
    rw [translation_track_translation_writes, rotation_track_translation_writes, ih]
    rcases Nat.lt_trichotomy j n with h | h | h
    · have h1 : j < n + 1 := by omega
      have h2 : ¬ n = j := by omega
      simp [h, h1, h2]
    · subst h
      simp
    · have h1 : ¬ j < n + 1 := by omega
      have h2 : ¬ n = j := by omega
      have h3 : ¬ j < n := by omega
      simp [h1, h2, h3]

theorem decode_bones_sink_calls (s : DecodeState F) (n : Nat) :
    sink_calls (decode_bones ext header size alpha s n).trace =
      sink_calls s.trace ++
        (List.range n).flatMap fun b =>
          [SinkCall.write_bone_rotation b, SinkCall.write_bone_translation b] := by
  induction n with
  | zero => simp [decode_bones_zero]
  | succ n ih =>
    rw [decode_bones_succ]
    unfold decode_bone
    rw [translation_track_sink_calls, rotation_track_sink_calls, ih, List.range_succ]
    simp

theorem decode_bones_default_tests (s : DecodeState F) (h0 : s.default_track_offset = 0)
    (h1 : s.constant_track_offset = 0) (n : Nat) (hn : n ≤ 2147483648) :
    default_tests (decode_bones ext header size alpha s n).trace =
      default_tests s.trace ++ List.range (2 * n) := by
  induction n with
  | zero => simp [decode_bones_zero]
  | succ n ih =>
    have ih := ih (by omega)
    have hoff := decode_bones_offsets ext header size alpha s h0 h1 n
    have e0 : u32 (2 * n) = 2 * n := u32_of_lt (by omega)
    have e1 : u32 (2 * n + 1) = 2 * n + 1 := u32_of_lt (by omega)
    rw [e0] at hoff
    rw [decode_bones_succ]
    unfold decode_bone
    rw [translation_track_default_tests, rotation_track_default_tests,
      rotation_track_default_track_offset, hoff.1, e1, ih]
    have e2 : 2 * (n + 1) = (2 * n + 1) + 1 := by omega
    rw [e2, List.range_succ, List.range_succ]
    simp

theorem decode_bones_default_tests_and_sink_calls (s : DecodeState F)
    (h0 : s.default_track_offset = 0) (h1 : s.constant_track_offset = 0) (n : Nat)
    (hn : n ≤ 2147483648) :
    default_tests_and_sink_calls (decode_bones ext header size alpha s n).trace =
      default_tests_and_sink_calls s.trace ++
        (List.range n).flatMap fun b =>
          [Sum.inl (2 * b), Sum.inr (SinkCall.write_bone_rotation b),
            Sum.inl (2 * b + 1), Sum.inr (SinkCall.write_bone_translation b)] := by
  induction n with
  | zero => simp [decode_bones_zero]
  | succ n ih =>
    have ih := ih (by omega)
    have hoff := decode_bones_offsets ext header size alpha s h0 h1 n
    have e0 : u32 (2 * n) = 2 * n := u32_of_lt (by omega)
    have e1 : u32 (2 * n + 1) = 2 * n + 1 := u32_of_lt (by omega)
    rw [e0] at hoff
    rw [decode_bones_succ]
    unfold decode_bone
    rw [translation_track_default_tests_and_sink_calls,
      rotation_track_default_tests_and_sink_calls,
      rotation_track_default_track_offset, hoff.1, e1, ih, List.range_succ]
    simp

end loop_lemmas

/-! ## The value written for each track, in closed form -/

section closed_form
variable {F : Type} [Add F] [Sub F] [Mul F] [Zero F] [One F] [NatCast F] [Div F]
variable (ext : Externals F) (header : FullPrecisionHeader F) (sample_time : F)

theorem full_precision_decoder_eq :
    full_precision_decoder ext header sample_time =
      decode_bones ext header (tracks_bitset_size header)
        (interpolation_keys ext header sample_time).interpolation_alpha
        (initial_state ext header sample_time) header.num_bones := rfl

theorem written_rotation (b : Nat) (hb : b < header.num_bones)
    (h32 : 2 * b + 1 < 4294967296) :
    rotation_writes (full_precision_decoder ext header sample_time).trace b =
      [if default_bit ext header (2 * b) then quat_32_identity
        else if constant_bit ext header (2 * b) then
          quat_unaligned_load header.constant_track_data (constant_rotation_offset ext header b)
        else
          quat_lerp
            (stored_rotation ext header
              (interpolation_keys ext header sample_time).key_frame0 b)
            (stored_rotation ext header
              (interpolation_keys ext header sample_time).key_frame1 b)
            (interpolation_keys ext header sample_time).interpolation_alpha] := by
  rw [full_precision_decoder_eq, decode_bones_rotation_writes]
  have hoff := decode_bones_offsets ext header (tracks_bitset_size header)
    (interpolation_keys ext header sample_time).interpolation_alpha
    (initial_state ext header sample_time) rfl rfl b
  have hcur := decode_bones_cursors ext header
    (interpolation_keys ext header sample_time).interpolation_alpha
    (initial_state ext header sample_time) rfl rfl b
    (by omega)
  have e0 : u32 (2 * b) = 2 * b := u32_of_lt (by omega)
  rw [e0] at hoff
  simp only [hb, if_true, rotation_value, hoff.1, hoff.2, hcur.1, hcur.2.1, hcur.2.2]
  simp [initial_state, rotation_writes, default_bit, constant_bit, stored_rotation,
    key_frame_offset]

theorem constant_translation_offset_eq (b : Nat) :
    constant_translation_offset ext header b =
      constant_rotation_offset ext header b +
        (if (!ext.bitset_test header.default_tracks_bitset (tracks_bitset_size header) (2 * b) &&
            ext.bitset_test header.constant_tracks_bitset (tracks_bitset_size header) (2 * b))
          then 4 else 0) := by
  simp only [constant_translation_offset, constant_rotation_offset,
    num_constant_rotations_before, countP_range_succ, is_constant_track, default_bit,
    constant_bit]
  split_ifs <;> omega

theorem animated_translation_offset_eq (b : Nat) :
    animated_translation_offset ext header b =
      animated_rotation_offset ext header b +
        (if (!ext.bitset_test header.default_tracks_bitset (tracks_bitset_size header) (2 * b) &&
            !ext.bitset_test header.constant_tracks_bitset (tracks_bitset_size header) (2 * b))
          then 4 else 0) := by
  simp only [animated_translation_offset, animated_rotation_offset,
    num_animated_rotations_before, countP_range_succ, is_animated_track, default_bit,
    constant_bit]
  split_ifs <;> omega

theorem written_translation (b : Nat) (hb : b < header.num_bones)
    (h32 : 2 * b + 1 < 4294967296) :
    translation_writes (full_precision_decoder ext header sample_time).trace b =
      [if default_bit ext header (2 * b + 1) then vector_32_zero
        else if constant_bit ext header (2 * b + 1) then
          vector_unaligned_load3 header.constant_track_data
            (constant_translation_offset ext header b)
        else
          vector_lerp
            (stored_translation ext header
              (interpolation_keys ext header sample_time).key_frame0 b)
            (stored_translation ext header
              (interpolation_keys ext header sample_time).key_frame1 b)
            (interpolation_keys ext header sample_time).interpolation_alpha] := by
  rw [full_precision_decoder_eq, decode_bones_translation_writes]
  have hoff := decode_bones_offsets ext header (tracks_bitset_size header)
    (interpolation_keys ext header sample_time).interpolation_alpha
    (initial_state ext header sample_time) rfl rfl b
  have hcur := decode_bones_cursors ext header
    (interpolation_keys ext header sample_time).interpolation_alpha
    (initial_state ext header sample_time) rfl rfl b
    (by omega)
  have e0 : u32 (2 * b) = 2 * b := u32_of_lt (by omega)
  have e1 : u32 (2 * b + 1) = 2 * b + 1 := u32_of_lt (by omega)
  rw [e0] at hoff
  simp only [hb, if_true, translation_value, rotation_track_default_track_offset,
    rotation_track_constant_track_offset, rotation_track_constant_track_data,
    (rotation_track_key_frame_data ext header _ _ b _).1,
    (rotation_track_key_frame_data ext header _ _ b _).2,
    hoff.1, hoff.2, hcur.1, hcur.2.1, hcur.2.2, e1]
  simp only [stored_translation, constant_translation_offset_eq,
    animated_translation_offset_eq, default_bit, constant_bit, key_frame_offset]
  simp [initial_state, translation_writes, Nat.add_assoc]

end closed_form

/-! ## The full precision decoder: claims -/

section decoder_claims
variable {F : Type} [Add F] [Sub F] [Mul F] [Zero F] [One F] [NatCast F] [Div F]

/-- C1: for every clip, every sample time and every bone `b < num_bones` whose track indices
`2b` and `2b + 1` fit a `uint32_t`: when bit `2b` of the default bitset is set the decoder
writes exactly one rotation for bone `b`, the identity quaternion, and when bit `2b + 1` is
set it writes exactly one translation for bone `b`, the zero vector, whatever the constant
bitset and the two value streams hold. -/
theorem C1_default_track_decodes_to_identity_or_zero (ext : Externals F)
    (header : FullPrecisionHeader F) (sample_time : F) (b : Nat)
    (hb : b < header.num_bones) (h32 : 2 * b + 1 < 4294967296) :
    (default_bit ext header (2 * b) = true →
      rotation_writes (full_precision_decoder ext header sample_time).trace b =
        [quat_32_identity]) ∧
    (default_bit ext header (2 * b + 1) = true →
      translation_writes (full_precision_decoder ext header sample_time).trace b =
        [vector_32_zero]) := by
  constructor
  · intro hd
    rw [written_rotation ext header sample_time b hb h32, hd]
    rfl
  · intro hd
    rw [written_translation ext header sample_time b hb h32, hd]
    rfl

/-- Witness of C1: bone 1 of the clip `mixed_header`, whose two tracks are default and whose
translation also has its constant bit set. -/
theorem C1_default_track_witness :
    ((1 < mixed_header.num_bones ∧ 2 * 1 + 1 < 4294967296) ∧
      default_bit spec_externals mixed_header 2 = true ∧
      default_bit spec_externals mixed_header 3 = true ∧
      constant_bit spec_externals mixed_header 3 = true) ∧
    rotation_writes (full_precision_decoder spec_externals mixed_header (1 / 30)).trace 1 =
      [⟨0, 0, 0, 1⟩] ∧
    translation_writes (full_precision_decoder spec_externals mixed_header (1 / 30)).trace 1 =
      [⟨0, 0, 0⟩] :=
  ⟨⟨⟨by decide, by decide⟩, by decide, by decide, by decide⟩,
    (C1_default_track_decodes_to_identity_or_zero spec_externals mixed_header (1 / 30) 1
      (by decide) (by decide)).1 (by decide),
    (C1_default_track_decodes_to_identity_or_zero spec_externals mixed_header (1 / 30) 1
      (by decide) (by decide)).2 (by decide)⟩

/-- C2: for every clip and every bone `b < num_bones` whose track indices `2b` and `2b + 1`
fit a `uint32_t`, a constant track being one with default bit clear and constant bit set: a
constant rotation track is written as the 4 floats of the constant stream at float offset
4 * (constant rotation tracks of bones below `b`) + 3 * (constant translation tracks of bones
below `b`); a constant translation track is written as the 3 floats at offset
4 * (constant rotation tracks of bones up to `b`) + 3 * (constant translation tracks of bones
below `b`), the rotation of bone `b` being the one track of bone `b` that comes earlier; and a
decode at any other sample time writes the same value. -/
theorem C2_constant_track_decodes_to_stored_constant (ext : Externals F)
    (header : FullPrecisionHeader F) (sample_time other_time : F) (b : Nat)
    (hb : b < header.num_bones) (h32 : 2 * b + 1 < 4294967296) :
    (default_bit ext header (2 * b) = false → constant_bit ext header (2 * b) = true →
      rotation_writes (full_precision_decoder ext header sample_time).trace b =
        [⟨header.constant_track_data
            (4 * num_constant_rotations_before ext header b +
              3 * num_constant_translations_before ext header b),
          header.constant_track_data
            (4 * num_constant_rotations_before ext header b +
              3 * num_constant_translations_before ext header b + 1),
          header.constant_track_data
            (4 * num_constant_rotations_before ext header b +
              3 * num_constant_translations_before ext header b + 2),
          header.constant_track_data
            (4 * num_constant_rotations_before ext header b +
              3 * num_constant_translations_before ext header b + 3)⟩] ∧
      rotation_writes (full_precision_decoder ext header other_time).trace b =
        rotation_writes (full_precision_decoder ext header sample_time).trace b) ∧
    (default_bit ext header (2 * b + 1) = false →
        constant_bit ext header (2 * b + 1) = true →
      translation_writes (full_precision_decoder ext header sample_time).trace b =
        [⟨header.constant_track_data
            (4 * num_constant_rotations_before ext header (b + 1) +
              3 * num_constant_translations_before ext header b),
          header.constant_track_data
            (4 * num_constant_rotations_before ext header (b + 1) +
              3 * num_constant_translations_before ext header b + 1),
          header.constant_track_data
            (4 * num_constant_rotations_before ext header (b + 1) +
              3 * num_constant_translations_before ext header b + 2)⟩] ∧
      translation_writes (full_precision_decoder ext header other_time).trace b =
        translation_writes (full_precision_decoder ext header sample_time).trace b) := by
  constructor
  · intro hd hc
    rw [written_rotation ext header sample_time b hb h32,
      written_rotation ext header other_time b hb h32, hd, hc]
    exact ⟨rfl, rfl⟩
  · intro hd hc
    rw [written_translation ext header sample_time b hb h32,
      written_translation ext header other_time b hb h32, hd, hc]
    exact ⟨rfl, rfl⟩

/-- Witness of C2: the constant translation of bone 2 of `mixed_header`, after the constant
rotation of bone 0, is read at float offset 4 and is `(5, 6, 7)` at both sample times. -/
theorem C2_constant_track_witness :
    ((2 < mixed_header.num_bones ∧ 2 * 2 + 1 < 4294967296) ∧
      default_bit spec_externals mixed_header 5 = false ∧
      constant_bit spec_externals mixed_header 5 = true ∧
      4 * num_constant_rotations_before spec_externals mixed_header 3 +
        3 * num_constant_translations_before spec_externals mixed_header 2 = 4) ∧
    translation_writes (full_precision_decoder spec_externals mixed_header 0).trace 2 =
      [⟨5, 6, 7⟩] ∧
    translation_writes (full_precision_decoder spec_externals mixed_header (1 / 20)).trace 2 =
      translation_writes (full_precision_decoder spec_externals mixed_header 0).trace 2 :=
  ⟨⟨⟨by decide, by decide⟩, by decide, by decide, by decide⟩,
    ((C2_constant_track_decodes_to_stored_constant spec_externals mixed_header 0 (1 / 20) 2
      (by decide) (by decide)).2 (by decide) (by decide)).1.trans (by decide),
    ((C2_constant_track_decodes_to_stored_constant spec_externals mixed_header 0 (1 / 20) 2
      (by decide) (by decide)).2 (by decide) (by decide)).2⟩

theorem scenario_clip_duration : clip_duration scenario_header = (1 / 30 : ℚ) := by
  norm_num [clip_duration, scenario_header, u32_sub, u32]

theorem scenario_keys_at_half :
    interpolation_keys spec_externals scenario_header (1 / 60) = ⟨0, 1, 1 / 2⟩ := by
  rw [interpolation_keys, scenario_clip_duration]
  norm_num [spec_externals, calculate_interpolation_keys, scenario_header]

theorem scenario_keys_at_end :
    interpolation_keys spec_externals scenario_header (1 / 30) = ⟨1, 1, 0⟩ := by
  rw [interpolation_keys, scenario_clip_duration]
  norm_num [spec_externals, calculate_interpolation_keys, scenario_header]

theorem scenario_stored_rotation_0 :
    stored_rotation spec_externals scenario_header 0 1 = ⟨0, 0, 0, 1⟩ := by
  decide

theorem scenario_stored_rotation_1 :
    stored_rotation spec_externals scenario_header 1 1 = ⟨0, 1, 0, 0⟩ := by
  decide

/-- C3: for every clip, every sample time and every bone `b < num_bones` whose track indices
`2b` and `2b + 1` fit a `uint32_t`: an animated rotation track is written as the
component-wise blend `v0 + (v1 - v0) * alpha` of the 4 floats `v0` at the keyframe-0 cursor and
the 4 floats `v1` at the keyframe-1 cursor, with `alpha` the factor returned by the key
resolver, nothing else applied to it; an animated translation track likewise on 3 floats. -/
theorem C3_animated_track_is_linear_blend (ext : Externals F)
    (header : FullPrecisionHeader F) (sample_time : F) (b : Nat)
    (hb : b < header.num_bones) (h32 : 2 * b + 1 < 4294967296)
    (k0 k1 : Nat) (alpha : F)
    (hkeys : interpolation_keys ext header sample_time = ⟨k0, k1, alpha⟩) :
    (default_bit ext header (2 * b) = false → constant_bit ext header (2 * b) = false →
      rotation_writes (full_precision_decoder ext header sample_time).trace b =
        [⟨(stored_rotation ext header k0 b).x +
            ((stored_rotation ext header k1 b).x - (stored_rotation ext header k0 b).x) * alpha,
          (stored_rotation ext header k0 b).y +
            ((stored_rotation ext header k1 b).y - (stored_rotation ext header k0 b).y) * alpha,
          (stored_rotation ext header k0 b).z +
            ((stored_rotation ext header k1 b).z - (stored_rotation ext header k0 b).z) * alpha,
          (stored_rotation ext header k0 b).w +
            ((stored_rotation ext header k1 b).w - (stored_rotation ext header k0 b).w) *
              alpha⟩]) ∧
    (default_bit ext header (2 * b + 1) = false →
        constant_bit ext header (2 * b + 1) = false →
      translation_writes (full_precision_decoder ext header sample_time).trace b =
        [⟨(stored_translation ext header k0 b).x +
            ((stored_translation ext header k1 b).x - (stored_translation ext header k0 b).x) *
              alpha,
          (stored_translation ext header k0 b).y +
            ((stored_translation ext header k1 b).y - (stored_translation ext header k0 b).y) *
              alpha,
          (stored_translation ext header k0 b).z +
            ((stored_translation ext header k1 b).z - (stored_translation ext header k0 b).z) *
              alpha⟩]) := by
  constructor
  · intro hd hc
    rw [written_rotation ext header sample_time b hb h32, hd, hc, hkeys]
    rfl
  · intro hd hc
    rw [written_translation ext header sample_time b hb h32, hd, hc, hkeys]
    rfl

/-- Witness of C3, the concrete scenario: 2 bones, 30 samples per second, 2 samples, the
rotation of bone 1 animated from `(0, 0, 0, 1)` to `(0, 1, 0, 0)`; half way through the clip
the resolver returns `alpha = 1/2` and the rotation written is `(0, 1/2, 0, 1/2)`. -/
theorem C3_animated_track_witness :
    ((1 < scenario_header.num_bones ∧ 2 * 1 + 1 < 4294967296) ∧
      interpolation_keys spec_externals scenario_header (1 / 60) = ⟨0, 1, 1 / 2⟩ ∧
      default_bit spec_externals scenario_header 2 = false ∧
      constant_bit spec_externals scenario_header 2 = false ∧
      stored_rotation spec_externals scenario_header 0 1 = ⟨0, 0, 0, 1⟩ ∧
      stored_rotation spec_externals scenario_header 1 1 = ⟨0, 1, 0, 0⟩) ∧
    rotation_writes (full_precision_decoder spec_externals scenario_header (1 / 60)).trace 1 =
      [⟨0, 1 / 2, 0, 1 / 2⟩] :=
  ⟨⟨⟨by decide, by decide⟩, scenario_keys_at_half, by decide, by decide,
      scenario_stored_rotation_0, scenario_stored_rotation_1⟩,
    ((C3_animated_track_is_linear_blend spec_externals scenario_header (1 / 60) 1
      (by decide) (by decide) 0 1 (1 / 2) scenario_keys_at_half).1
        (by decide) (by decide)).trans
      (by rw [scenario_stored_rotation_0, scenario_stored_rotation_1]; norm_num)⟩

theorem mixed_clip_duration : clip_duration mixed_header = (1 / 15 : ℚ) := by
  norm_num [clip_duration, mixed_header, u32_sub, u32]

theorem mixed_keys_at_second_sample :
    interpolation_keys spec_externals mixed_header (1 / 30) = ⟨1, 2, 0⟩ := by
  rw [interpolation_keys, mixed_clip_duration]
  norm_num [spec_externals, calculate_interpolation_keys, mixed_header]

theorem spec_keys_at_end (num_samples : Nat) (duration t : ℚ) (h : duration ≤ t) :
    spec_externals.calculate_interpolation_keys num_samples duration t =
      ⟨num_samples - 1, num_samples - 1, 0⟩ := by
  simp [spec_externals, calculate_interpolation_keys, h]

theorem quat_lerp_alpha_zero (hmul : ∀ x : F, x * 0 = 0) (hadd : ∀ x : F, x + 0 = x)
    (q0 q1 : Quat_32 F) : quat_lerp q0 q1 0 = q0 := by
  simp [quat_lerp, scalar_lerp, hmul, hadd]

theorem vector_lerp_alpha_zero (hmul : ∀ x : F, x * 0 = 0) (hadd : ∀ x : F, x + 0 = x)
    (v0 v1 : Vector4_32 F) : vector_lerp v0 v1 0 = v0 := by
  simp [vector_lerp, scalar_lerp, hmul, hadd]

/-- C4: for every clip, every bone `b < num_bones` whose track indices `2b` and `2b + 1` fit a
`uint32_t`, and every sample time for which the key resolver returns
`interpolation_alpha = 0`: an animated track is written as exactly the value stored for it in
keyframe `key_frame0`; keyframe `key_frame1` does not appear in the result.  The scalars are
taken with exact arithmetic: `x * 0 = 0` and `x + 0 = x`. -/
theorem C4_alpha_zero_decodes_to_key_frame0 (ext : Externals F)
    (header : FullPrecisionHeader F) (sample_time : F) (b : Nat)
    (hb : b < header.num_bones) (h32 : 2 * b + 1 < 4294967296)
    (hmul : ∀ x : F, x * 0 = 0) (hadd : ∀ x : F, x + 0 = x)
    (halpha : (interpolation_keys ext header sample_time).interpolation_alpha = 0) :
    (default_bit ext header (2 * b) = false → constant_bit ext header (2 * b) = false →
      rotation_writes (full_precision_decoder ext header sample_time).trace b =
        [stored_rotation ext header (interpolation_keys ext header sample_time).key_frame0
          b]) ∧
    (default_bit ext header (2 * b + 1) = false →
        constant_bit ext header (2 * b + 1) = false →
      translation_writes (full_precision_decoder ext header sample_time).trace b =
        [stored_translation ext header (interpolation_keys ext header sample_time).key_frame0
          b]) := by
  constructor
  · intro hd hc
    rw [written_rotation ext header sample_time b hb h32, hd, hc, halpha]
    simp [quat_lerp_alpha_zero hmul hadd]
  · intro hd hc
    rw [written_translation ext header sample_time b hb h32, hd, hc, halpha]
    simp [vector_lerp_alpha_zero hmul hadd]

/-- Witness of C4: in `mixed_header` the sample time `1/30` is the time of sample 1, the
resolver returns keys `(1, 2)` and `alpha = 0`, and the animated rotation of bone 2 is written
as the rotation `(0, 1, 0, 0)` stored in keyframe 1. -/
theorem C4_alpha_zero_witness :
    ((2 < mixed_header.num_bones ∧ 2 * 2 + 1 < 4294967296) ∧
      (∀ x : ℚ, x * 0 = 0) ∧ (∀ x : ℚ, x + 0 = x) ∧
      interpolation_keys spec_externals mixed_header (1 / 30) = ⟨1, 2, 0⟩ ∧
      default_bit spec_externals mixed_header 4 = false ∧
      constant_bit spec_externals mixed_header 4 = false ∧
      stored_rotation spec_externals mixed_header 1 2 = ⟨0, 1, 0, 0⟩) ∧
    rotation_writes (full_precision_decoder spec_externals mixed_header (1 / 30)).trace 2 =
      [⟨0, 1, 0, 0⟩] :=
  ⟨⟨⟨by decide, by decide⟩, mul_zero, add_zero, mixed_keys_at_second_sample, by decide,
      by decide, by decide⟩,
    ((C4_alpha_zero_decodes_to_key_frame0 spec_externals mixed_header (1 / 30) 2
      (by decide) (by decide) mul_zero add_zero
      (by rw [mixed_keys_at_second_sample])).1 (by decide) (by decide)).trans
      (by rw [mixed_keys_at_second_sample]; decide)⟩

/-- C5: for every clip with `1 <= num_samples`, the clip duration is
`(num_samples - 1) / sample_rate`, and with a key resolver that returns
`key0 = key1 = num_samples - 1` and `alpha = 0` at every query time at or after the clip
duration, at every such sample time every animated track of a bone `b < num_bones` whose
track indices fit a `uint32_t` is written as exactly the value stored for it in the last
keyframe, index `num_samples - 1`.  The scalars are taken with exact arithmetic:
`x * 0 = 0` and `x + 0 = x`. -/
theorem C5_at_or_after_clip_end_decodes_to_last_sample [LE F] (ext : Externals F)
    (header : FullPrecisionHeader F) (sample_time : F) (b : Nat)
    (hb : b < header.num_bones) (h32 : 2 * b + 1 < 4294967296)
    (hs : 1 ≤ header.num_samples) (hs32 : header.num_samples < 4294967296)
    (hmul : ∀ x : F, x * 0 = 0) (hadd : ∀ x : F, x + 0 = x)
    (hcontract : ∀ t : F, clip_duration header ≤ t →
      ext.calculate_interpolation_keys header.num_samples (clip_duration header) t =
        ⟨header.num_samples - 1, header.num_samples - 1, 0⟩)
    (ht : clip_duration header ≤ sample_time) :
    clip_duration header =
      ((header.num_samples - 1 : Nat) : F) / ((header.sample_rate : Nat) : F) ∧
    (default_bit ext header (2 * b) = false → constant_bit ext header (2 * b) = false →
      rotation_writes (full_precision_decoder ext header sample_time).trace b =
        [stored_rotation ext header (header.num_samples - 1) b]) ∧
    (default_bit ext header (2 * b + 1) = false →
        constant_bit ext header (2 * b + 1) = false →
      translation_writes (full_precision_decoder ext header sample_time).trace b =
        [stored_translation ext header (header.num_samples - 1) b]) := by
  have hkeys : interpolation_keys ext header sample_time =
      ⟨header.num_samples - 1, header.num_samples - 1, 0⟩ := hcontract sample_time ht
  have hsub : u32_sub header.num_samples 1 = header.num_samples - 1 := by
    unfold u32_sub u32
    omega
  refine ⟨?_, ?_, ?_⟩
  · rw [clip_duration, hsub]
  · intro hd hc
    rw [written_rotation ext header sample_time b hb h32, hd, hc, hkeys]
    simp [quat_lerp_alpha_zero hmul hadd]
  · intro hd hc
    rw [written_translation ext header sample_time b hb h32, hd, hc, hkeys]
    simp [vector_lerp_alpha_zero hmul hadd]

/-- Witness of C5, the concrete scenario: 30 samples per second, 2 samples, clip duration
`1/30`; at `sample_time = clip_duration` the rotation written for bone 1 is the rotation
`(0, 1, 0, 0)` of keyframe 1. -/
theorem C5_at_clip_end_witness :
    ((1 < scenario_header.num_bones ∧ 2 * 1 + 1 < 4294967296 ∧
        1 ≤ scenario_header.num_samples ∧ scenario_header.num_samples < 4294967296) ∧
      clip_duration scenario_header = (1 / 30 : ℚ) ∧
      default_bit spec_externals scenario_header 2 = false ∧
      constant_bit spec_externals scenario_header 2 = false ∧
      stored_rotation spec_externals scenario_header (scenario_header.num_samples - 1) 1 =
        ⟨0, 1, 0, 0⟩) ∧
    rotation_writes (full_precision_decoder spec_externals scenario_header (1 / 30)).trace 1 =
      [⟨0, 1, 0, 0⟩] :=
  ⟨⟨⟨by decide, by decide, by decide, by decide⟩, scenario_clip_duration, by decide,
      by decide, by decide⟩,
    ((C5_at_or_after_clip_end_decodes_to_last_sample spec_externals scenario_header (1 / 30) 1
      (by decide) (by decide) (by decide) (by decide) mul_zero add_zero
      (fun t h => spec_keys_at_end _ _ t h)
      (by rw [scenario_clip_duration])).2.1 (by decide) (by decide)).trans (by decide)⟩

theorem count_rotation_calls (n b : Nat) :
    ((List.range n).flatMap fun j =>
      [SinkCall.write_bone_rotation j, SinkCall.write_bone_translation j]).count
        (SinkCall.write_bone_rotation b) = if b < n then 1 else 0 := by
  induction n with
  | zero => simp
  | succ n ih =>
    rw [List.range_succ, List.flatMap_append, List.count_append, ih]
    rcases Nat.lt_trichotomy b n with h | h | h
    · have h1 : b < n + 1 := by omega
      have h2 : ¬ n = b := by omega
      simp [h, h1, h2, List.count_cons]
    · subst h
      simp [List.count_cons]
    · have h1 : ¬ b < n + 1 := by omega
      have h2 : ¬ n = b := by omega
      have h3 : ¬ b < n := by omega
      simp [h1, h2, h3, List.count_cons]

theorem count_translation_calls (n b : Nat) :
    ((List.range n).flatMap fun j =>
      [SinkCall.write_bone_rotation j, SinkCall.write_bone_translation j]).count
        (SinkCall.write_bone_translation b) = if b < n then 1 else 0 := by
  induction n with
  | zero => simp
  | succ n ih =>
    rw [List.range_succ, List.flatMap_append, List.count_append, ih]
    rcases Nat.lt_trichotomy b n with h | h | h
    · have h1 : b < n + 1 := by omega
      have h2 : ¬ n = b := by omega
      simp [h, h1, h2, List.count_cons]
    · subst h
      simp [List.count_cons]
    · have h1 : ¬ b < n + 1 := by omega
      have h2 : ¬ n = b := by omega
      have h3 : ¬ b < n := by omega
      simp [h1, h2, h3, List.count_cons]

theorem length_sink_call_sequence (n : Nat) :
    ((List.range n).flatMap fun j =>
      [SinkCall.write_bone_rotation j, SinkCall.write_bone_translation j]).length = 2 * n := by
  induction n with
  | zero => simp
  | succ n ih =>
    rw [List.range_succ, List.flatMap_append, List.length_append, ih]
    simp
    omega

/-- C6: for every clip and sample time the calls of the output writer made by one decode are,
in order, `write_bone_rotation(0)`, `write_bone_translation(0)`, ...,
`write_bone_rotation(num_bones - 1)`, `write_bone_translation(num_bones - 1)`: there are
`2 * num_bones` of them (none when `num_bones = 0`), and each of the two operations is called
once for every bone below `num_bones` and never for another index, whatever the modes of the
tracks. -/
theorem C6_sink_called_once_per_bone_in_order (ext : Externals F)
    (header : FullPrecisionHeader F) (sample_time : F) :
    sink_calls (full_precision_decoder ext header sample_time).trace =
        ((List.range header.num_bones).flatMap fun b =>
          [SinkCall.write_bone_rotation b, SinkCall.write_bone_translation b]) ∧
      (sink_calls (full_precision_decoder ext header sample_time).trace).length =
        2 * header.num_bones ∧
      ∀ b : Nat,
        (sink_calls (full_precision_decoder ext header sample_time).trace).count
            (SinkCall.write_bone_rotation b) = (if b < header.num_bones then 1 else 0) ∧
          (sink_calls (full_precision_decoder ext header sample_time).trace).count
            (SinkCall.write_bone_translation b) = (if b < header.num_bones then 1 else 0) := by
  have h : sink_calls (full_precision_decoder ext header sample_time).trace =
      ((List.range header.num_bones).flatMap fun b =>
        [SinkCall.write_bone_rotation b, SinkCall.write_bone_translation b]) := by
    rw [full_precision_decoder_eq, decode_bones_sink_calls]
    simp [initial_state, sink_calls]
  rw [h]
  exact ⟨rfl, length_sink_call_sequence _, fun b =>
    ⟨count_rotation_calls _ b, count_translation_calls _ b⟩⟩

/-- C7: one track step moves the stream cursors by the mode of the track only, from every
state of the locals.  Default bit set (whatever the constant bit): the constant cursor and the
two keyframe cursors stay.  Default bit clear, constant bit set: the constant cursor advances by
4 floats (rotation) or 3 floats (translation), the keyframe cursors stay.  Both bits clear: the
two keyframe cursors advance by 4 (rotation) or 3 (translation) floats, the constant cursor
stays. -/
theorem C7_track_step_moves_cursors_by_mode (ext : Externals F)
    (header : FullPrecisionHeader F) (size : Nat) (alpha : F) (bone_index : Nat)
    (s : DecodeState F) :
    (ext.bitset_test header.default_tracks_bitset size s.default_track_offset = true →
      ((decode_rotation_track ext header size alpha bone_index s).constant_track_data =
          s.constant_track_data ∧
        (decode_rotation_track ext header size alpha bone_index s).key_frame_data0 =
          s.key_frame_data0 ∧
        (decode_rotation_track ext header size alpha bone_index s).key_frame_data1 =
          s.key_frame_data1) ∧
      ((decode_translation_track ext header size alpha bone_index s).constant_track_data =
          s.constant_track_data ∧
        (decode_translation_track ext header size alpha bone_index s).key_frame_data0 =
          s.key_frame_data0 ∧
        (decode_translation_track ext header size alpha bone_index s).key_frame_data1 =
          s.key_frame_data1)) ∧
    (ext.bitset_test header.default_tracks_bitset size s.default_track_offset = false →
        ext.bitset_test header.constant_tracks_bitset size s.constant_track_offset = true →
      ((decode_rotation_track ext header size alpha bone_index s).constant_track_data =
          s.constant_track_data + 4 ∧
        (decode_rotation_track ext header size alpha bone_index s).key_frame_data0 =
          s.key_frame_data0 ∧
        (decode_rotation_track ext header size alpha bone_index s).key_frame_data1 =
          s.key_frame_data1) ∧
      ((decode_translation_track ext header size alpha bone_index s).constant_track_data =
          s.constant_track_data + 3 ∧
        (decode_translation_track ext header size alpha bone_index s).key_frame_data0 =
          s.key_frame_data0 ∧
        (decode_translation_track ext header size alpha bone_index s).key_frame_data1 =
          s.key_frame_data1)) ∧
    (ext.bitset_test header.default_tracks_bitset size s.default_track_offset = false →
        ext.bitset_test header.constant_tracks_bitset size s.constant_track_offset = false →
      ((decode_rotation_track ext header size alpha bone_index s).constant_track_data =
          s.constant_track_data ∧
        (decode_rotation_track ext header size alpha bone_index s).key_frame_data0 =
          s.key_frame_data0 + 4 ∧
        (decode_rotation_track ext header size alpha bone_index s).key_frame_data1 =
          s.key_frame_data1 + 4) ∧
      ((decode_translation_track ext header size alpha bone_index s).constant_track_data =
          s.constant_track_data ∧
        (decode_translation_track ext header size alpha bone_index s).key_frame_data0 =
          s.key_frame_data0 + 3 ∧
        (decode_translation_track ext header size alpha bone_index s).key_frame_data1 =
          s.key_frame_data1 + 3)) := by
  refine ⟨?_, ?_, ?_⟩
  · intro hd
    simp [decode_rotation_track, decode_translation_track, hd]
  · intro hd hc
    simp [decode_rotation_track, decode_translation_track, hd, hc]
  · intro hd hc
    simp [decode_rotation_track, decode_translation_track, hd, hc]

/-- Witness of C7 on `mixed_header`, from the locals before track 3 (default, constant bit
set), before track 0 (a constant rotation) and before track 4 (an animated rotation). -/
theorem C7_track_step_witness :
    (bitset_test mixed_header.default_tracks_bitset 1 3 = true ∧
      bitset_test mixed_header.constant_tracks_bitset 1 3 = true ∧
      (decode_translation_track spec_externals mixed_header 1 0 1
        ⟨3, 3, 4, 3, 10, []⟩).constant_track_data = 4) ∧
    (bitset_test mixed_header.default_tracks_bitset 1 0 = false ∧
      bitset_test mixed_header.constant_tracks_bitset 1 0 = true ∧
      (decode_rotation_track spec_externals mixed_header 1 0 0
        ⟨0, 0, 0, 0, 7, []⟩).constant_track_data = 0 + 4) ∧
    (bitset_test mixed_header.default_tracks_bitset 1 4 = false ∧
      bitset_test mixed_header.constant_tracks_bitset 1 4 = false ∧
      (decode_rotation_track spec_externals mixed_header 1 0 2
        ⟨4, 4, 4, 3, 10, []⟩).key_frame_data0 = 3 + 4 ∧
      (decode_rotation_track spec_externals mixed_header 1 0 2
        ⟨4, 4, 4, 3, 10, []⟩).key_frame_data1 = 10 + 4) :=
  ⟨⟨by decide, by decide,
      ((C7_track_step_moves_cursors_by_mode spec_externals mixed_header 1 0 1
        ⟨3, 3, 4, 3, 10, []⟩).1 (by decide)).2.1⟩,
    ⟨by decide, by decide,
      ((C7_track_step_moves_cursors_by_mode spec_externals mixed_header 1 0 0
        ⟨0, 0, 0, 0, 7, []⟩).2.1 (by decide) (by decide)).1.1⟩,
    ⟨by decide, by decide,
      ((C7_track_step_moves_cursors_by_mode spec_externals mixed_header 1 0 2
        ⟨4, 4, 4, 3, 10, []⟩).2.2 (by decide) (by decide)).1.2.1,
      ((C7_track_step_moves_cursors_by_mode spec_externals mixed_header 1 0 2
        ⟨4, 4, 4, 3, 10, []⟩).2.2 (by decide) (by decide)).1.2.2⟩⟩

/-- C8: for every clip whose track count `2 * num_bones` fits a `uint32_t` and every mix of
track modes: each track step tests the default bitset once, at the running offset, and
advances the running offset by one; one pass tests the default bitset `num_bones * 2` times, at
the offsets `0, 1, ..., 2 * num_bones - 1` in that order, offset `2b` right before the rotation
of bone `b` is written and offset `2b + 1` right before its translation is written; and the
running offset after the pass is `num_bones * NUM_TRACKS_PER_BONE`, which is `2 * num_bones`. -/
theorem C8_running_offset_advances_once_per_track (ext : Externals F)
    (header : FullPrecisionHeader F) (sample_time : F)
    (h32 : 2 * header.num_bones < 4294967296) :
    (∀ (size : Nat) (alpha : F) (b : Nat) (s : DecodeState F),
      s.default_track_offset + 1 < 4294967296 →
      ((decode_rotation_track ext header size alpha b s).default_track_offset =
          s.default_track_offset + 1 ∧
        default_tests (decode_rotation_track ext header size alpha b s).trace =
          default_tests s.trace ++ [s.default_track_offset]) ∧
      ((decode_translation_track ext header size alpha b s).default_track_offset =
          s.default_track_offset + 1 ∧
        default_tests (decode_translation_track ext header size alpha b s).trace =
          default_tests s.trace ++ [s.default_track_offset])) ∧
    default_tests (full_precision_decoder ext header sample_time).trace =
      List.range (2 * header.num_bones) ∧
    (default_tests (full_precision_decoder ext header sample_time).trace).length =
      header.num_bones * 2 ∧
    default_tests_and_sink_calls (full_precision_decoder ext header sample_time).trace =
      ((List.range header.num_bones).flatMap fun b =>
        [Sum.inl (2 * b), Sum.inr (SinkCall.write_bone_rotation b),
          Sum.inl (2 * b + 1), Sum.inr (SinkCall.write_bone_translation b)]) ∧
    (full_precision_decoder ext header sample_time).default_track_offset =
      header.num_bones * FullPrecisionConstants.NUM_TRACKS_PER_BONE ∧
    header.num_bones * FullPrecisionConstants.NUM_TRACKS_PER_BONE = 2 * header.num_bones := by
  have htests : default_tests (full_precision_decoder ext header sample_time).trace =
      List.range (2 * header.num_bones) := by
    rw [full_precision_decoder_eq,
      decode_bones_default_tests ext header _ _ _ rfl rfl _ (by omega)]
    simp [initial_state, default_tests]
  refine ⟨?_, htests, ?_, ?_, ?_, ?_⟩
  · intro size alpha b s hs
    rw [rotation_track_default_track_offset, translation_track_default_track_offset,
      rotation_track_default_tests, translation_track_default_tests, u32_of_lt hs]
    exact ⟨⟨rfl, rfl⟩, rfl, rfl⟩
  · rw [htests, List.length_range]
    omega
  · rw [full_precision_decoder_eq,
      decode_bones_default_tests_and_sink_calls ext header _ _ _ rfl rfl _ (by omega)]
    simp [initial_state, default_tests_and_sink_calls]
  · rw [full_precision_decoder_eq,
      (decode_bones_offsets ext header _ _ _ rfl rfl _).1, u32_of_lt h32]
    unfold FullPrecisionConstants.NUM_TRACKS_PER_BONE
    omega
  · unfold FullPrecisionConstants.NUM_TRACKS_PER_BONE
    omega

/-- Witness of C8 on `mixed_header`, which has one bone of each mix of modes: the default
bitset is tested 6 times, at the offsets 0 to 5, and the final running offset is 6. -/
theorem C8_running_offset_witness :
    2 * mixed_header.num_bones < 4294967296 ∧
    default_tests (full_precision_decoder spec_externals mixed_header (1 / 30)).trace =
      [0, 1, 2, 3, 4, 5] ∧
    (full_precision_decoder spec_externals mixed_header (1 / 30)).default_track_offset = 6 :=
  ⟨by decide,
    (C8_running_offset_advances_once_per_track spec_externals mixed_header (1 / 30)
      (by decide)).2.1.trans (by decide),
    (C8_running_offset_advances_once_per_track spec_externals mixed_header (1 / 30)
      (by decide)).2.2.2.2.1.trans (by decide)⟩

end decoder_claims

/-! ## The bitset word count -/

theorem ceil_div_32 (a : Nat) (ha : 0 < a) : ⌈(a : ℚ) / 32⌉₊ = (a + 31) / 32 := by
  have hn : (a + 31) / 32 ≠ 0 := by omega
  rw [Nat.ceil_eq_iff hn]
  constructor
  · rw [lt_div_iff₀ (by norm_num)]
    exact_mod_cast (by omega : ((a + 31) / 32 - 1) * 32 < a)
  · rw [div_le_iff₀ (by norm_num)]
    exact_mod_cast (by omega : a ≤ ((a + 31) / 32) * 32)

theorem bitset_size_of_small (n t : Nat) (h : n * t + 31 < 4294967296) :
    bitset_size n t 32 = (n * t + 31) / 32 := by
  unfold bitset_size u32_sub u32_add u32_mul u32
  generalize n * t = a at h
  omega

/-- C9: the word count that the decoder computes, `(num_bones * T + W - 1) / W` in `uint32_t`
arithmetic with `W = BITSET_WIDTH = 32`, is the ceiling of `num_bones * T / W` for every
`num_bones` from 1 to 200 and `T` in `{2, 3}`; with `T = NUM_TRACKS_PER_BONE` it is the word
count of every header with that many bones. -/
theorem C9_bitset_size_is_ceiling (F : Type) (num_bones T : Nat) (h1 : 1 ≤ num_bones)
    (h200 : num_bones ≤ 200) (hT : T = 2 ∨ T = 3) :
    bitset_size num_bones T FullPrecisionConstants.BITSET_WIDTH =
        ⌈((num_bones * T : Nat) : ℚ) /
          ((FullPrecisionConstants.BITSET_WIDTH : Nat) : ℚ)⌉₊ ∧
      ∀ header : FullPrecisionHeader F, header.num_bones = num_bones →
        tracks_bitset_size header =
          ⌈((num_bones * FullPrecisionConstants.NUM_TRACKS_PER_BONE : Nat) : ℚ) /
            ((FullPrecisionConstants.BITSET_WIDTH : Nat) : ℚ)⌉₊ := by
  have key : ∀ t : Nat, t = 2 ∨ t = 3 →
      bitset_size num_bones t 32 = ⌈((num_bones * t : Nat) : ℚ) / ((32 : Nat) : ℚ)⌉₊ := by
    intro t ht
    have hpos : 0 < num_bones * t := by
      rcases ht with ht | ht <;> subst ht <;> omega
    have hlt : num_bones * t + 31 < 4294967296 := by
      rcases ht with ht | ht <;> subst ht <;> omega
    rw [bitset_size_of_small num_bones t hlt]
    have := ceil_div_32 (num_bones * t) hpos
    rw [← this]
    norm_num
  refine ⟨key T hT, ?_⟩
  intro header hh
  unfold tracks_bitset_size
  rw [hh]
  exact key 2 (Or.inl rfl)

/-- Witness of C9: 17 bones of 2 tracks need 2 words, the ceiling of 34 / 32. -/
theorem C9_bitset_size_witness :
    (1 ≤ 17 ∧ 17 ≤ 200 ∧ ((2 : Nat) = 2 ∨ (2 : Nat) = 3)) ∧
      bitset_size 17 2 FullPrecisionConstants.BITSET_WIDTH = 2 ∧
      ⌈((17 * 2 : Nat) : ℚ) / ((FullPrecisionConstants.BITSET_WIDTH : Nat) : ℚ)⌉₊ = 2 :=
  ⟨⟨by decide, by decide, Or.inl rfl⟩, by decide,
    ((C9_bitset_size_is_ceiling ℚ 17 2 (by decide) (by decide) (Or.inl rfl)).1).symm.trans
      (by decide)⟩

/-! ## The format helpers: claims -/

/-- C10: for every decompression settings and every rotation format that the settings report
as supported, `get_rotation_format` returns its argument, and for every settings adapter and
every vector format that the adapter reports as supported, `get_vector_format` returns its
argument; so any dispatch on the returned format is the dispatch on the stored format. -/
theorem C10_format_shortcut_returns_supported_input (F : Type)
    (settings : decompression_settings) (adapter : decompression_settings_adapter F)
    (rotation_format : rotation_format8) (vector_format : vector_format8) :
    (settings.is_rotation_format_supported rotation_format = true →
      get_rotation_format settings rotation_format = rotation_format ∧
      ∀ (α : Type) (dispatch : rotation_format8 → α),
        dispatch (get_rotation_format settings rotation_format) = dispatch rotation_format) ∧
    (adapter.is_vector_format_supported vector_format = true →
      get_vector_format adapter vector_format = vector_format ∧
      ∀ (α : Type) (dispatch : vector_format8 → α),
        dispatch (get_vector_format adapter vector_format) = dispatch vector_format) := by
  constructor
  · intro h
    have e : get_rotation_format settings rotation_format = rotation_format := by
      unfold get_rotation_format num_supported_rotation_formats bool_to_int
      cases rotation_format <;>
        cases h1 : settings.is_rotation_format_supported rotation_format8.quatf_full <;>
        cases h2 : settings.is_rotation_format_supported rotation_format8.quatf_drop_w_full <;>
        cases h3 : settings.is_rotation_format_supported
          rotation_format8.quatf_drop_w_variable <;>
        simp_all
    exact ⟨e, fun _ dispatch => by rw [e]⟩
  · intro h
    have e : get_vector_format adapter vector_format = vector_format := by
      unfold get_vector_format num_supported_vector_formats bool_to_int
      cases vector_format <;>
        cases h1 : adapter.is_vector_format_supported vector_format8.vector3f_full <;>
        cases h2 : adapter.is_vector_format_supported vector_format8.vector3f_variable <;>
        simp_all
    exact ⟨e, fun _ dispatch => by rw [e]⟩

/-- Witness of C10: settings with the single rotation format `quatf_drop_w_variable` and the
single vector format `vector3f_variable`, where the shortcut is taken. -/
theorem C10_format_shortcut_witness :
    (variable_only_settings.is_rotation_format_supported
        rotation_format8.quatf_drop_w_variable = true ∧
      num_supported_rotation_formats variable_only_settings = 1 ∧
      (translation_decompression_settings_adapter ℚ
        variable_only_settings).is_vector_format_supported
          vector_format8.vector3f_variable = true) ∧
    get_rotation_format variable_only_settings rotation_format8.quatf_drop_w_variable =
      rotation_format8.quatf_drop_w_variable ∧
    get_vector_format (translation_decompression_settings_adapter ℚ variable_only_settings)
      vector_format8.vector3f_variable = vector_format8.vector3f_variable :=
  ⟨⟨by decide, by decide, by decide⟩,
    ((C10_format_shortcut_returns_supported_input ℚ variable_only_settings
      (translation_decompression_settings_adapter ℚ variable_only_settings)
      rotation_format8.quatf_drop_w_variable vector_format8.vector3f_variable).1
        (by decide)).1,
    ((C10_format_shortcut_returns_supported_input ℚ variable_only_settings
      (translation_decompression_settings_adapter ℚ variable_only_settings)
      rotation_format8.quatf_drop_w_variable vector_format8.vector3f_variable).2
        (by decide)).1⟩

/-- C11: `num_supported_rotation_formats` is the number of formats among `quatf_full`,
`quatf_drop_w_full`, `quatf_drop_w_variable` that the settings support; when it is exactly one,
`get_rotation_format` returns the single supported format for every input, supported or not;
when it is more than one, `get_rotation_format` returns its input.  The same holds for
`num_supported_vector_formats` and `get_vector_format` over `vector3f_full`,
`vector3f_variable`. -/
theorem C11_format_count_selects_static_or_runtime_format (F : Type)
    (settings : decompression_settings) (adapter : decompression_settings_adapter F) :
    (num_supported_rotation_formats settings =
        (([rotation_format8.quatf_full, rotation_format8.quatf_drop_w_full,
          rotation_format8.quatf_drop_w_variable].filter
            settings.is_rotation_format_supported).length : Int) ∧
      (num_supported_rotation_formats settings = 1 →
        ∀ format : rotation_format8,
          settings.is_rotation_format_supported (get_rotation_format settings format) = true ∧
          ∀ other : rotation_format8, settings.is_rotation_format_supported other = true →
            get_rotation_format settings format = other) ∧
      (num_supported_rotation_formats settings > 1 →
        ∀ format : rotation_format8, get_rotation_format settings format = format)) ∧
    (num_supported_vector_formats adapter =
        (([vector_format8.vector3f_full, vector_format8.vector3f_variable].filter
            adapter.is_vector_format_supported).length : Int) ∧
      (num_supported_vector_formats adapter = 1 →
        ∀ format : vector_format8,
          adapter.is_vector_format_supported (get_vector_format adapter format) = true ∧
          ∀ other : vector_format8, adapter.is_vector_format_supported other = true →
            get_vector_format adapter format = other) ∧
      (num_supported_vector_formats adapter > 1 →
        ∀ format : vector_format8, get_vector_format adapter format = format)) := by
  constructor
  · unfold get_rotation_format num_supported_rotation_formats bool_to_int
    cases h1 : settings.is_rotation_format_supported rotation_format8.quatf_full <;>
      cases h2 : settings.is_rotation_format_supported rotation_format8.quatf_drop_w_full <;>
      cases h3 : settings.is_rotation_format_supported
        rotation_format8.quatf_drop_w_variable <;>
      simp [List.filter, h1, h2, h3] <;>
      intro format other <;> cases other <;> simp [h1, h2, h3]
  · unfold get_vector_format num_supported_vector_formats bool_to_int
    cases h1 : adapter.is_vector_format_supported vector_format8.vector3f_full <;>
      cases h2 : adapter.is_vector_format_supported vector_format8.vector3f_variable <;>
      simp [List.filter, h1, h2] <;>
      intro format other <;> cases other <;> simp [h1, h2]

/-- Witness of C11: settings with the single rotation format `quatf_drop_w_variable` map the
unsupported input `quatf_full` to it; settings with all three formats return the input. -/
theorem C11_format_count_witness :
    (num_supported_rotation_formats variable_only_settings = 1 ∧
      variable_only_settings.is_rotation_format_supported rotation_format8.quatf_full =
        false ∧
      num_supported_rotation_formats all_formats_settings > 1) ∧
    get_rotation_format variable_only_settings rotation_format8.quatf_full =
      rotation_format8.quatf_drop_w_variable ∧
    get_rotation_format all_formats_settings rotation_format8.quatf_full =
      rotation_format8.quatf_full :=
  ⟨⟨by decide, by decide, by decide⟩,
    (((C11_format_count_selects_static_or_runtime_format ℚ variable_only_settings
      (translation_decompression_settings_adapter ℚ variable_only_settings)).1.2.1
        (by decide)) rotation_format8.quatf_full).2 rotation_format8.quatf_drop_w_variable
          (by decide),
    (C11_format_count_selects_static_or_runtime_format ℚ all_formats_settings
      (translation_decompression_settings_adapter ℚ all_formats_settings)).1.2.2
        (by decide) rotation_format8.quatf_full⟩

/-- C20: when the settings support none of the three rotation formats, `get_rotation_format`
returns `quatf_drop_w_variable` for every input, a format the settings do not support, and
when an adapter supports none of the two vector formats, `get_vector_format` returns
`vector3f_variable` for every input, again unsupported; whenever at least one format is
supported and the input is supported, the format returned is supported. -/
theorem C20_no_supported_format_returns_last_format (F : Type)
    (settings : decompression_settings) (adapter : decompression_settings_adapter F)
    (rotation_format : rotation_format8) (vector_format : vector_format8) :
    (num_supported_rotation_formats settings = 0 →
      get_rotation_format settings rotation_format = rotation_format8.quatf_drop_w_variable ∧
      settings.is_rotation_format_supported
        (get_rotation_format settings rotation_format) = false) ∧
    (num_supported_vector_formats adapter = 0 →
      get_vector_format adapter vector_format = vector_format8.vector3f_variable ∧
      adapter.is_vector_format_supported (get_vector_format adapter vector_format) = false) ∧
    (num_supported_rotation_formats settings ≥ 1 →
      settings.is_rotation_format_supported rotation_format = true →
      settings.is_rotation_format_supported
        (get_rotation_format settings rotation_format) = true) ∧
    (num_supported_vector_formats adapter ≥ 1 →
      adapter.is_vector_format_supported vector_format = true →
      adapter.is_vector_format_supported (get_vector_format adapter vector_format) = true) := by
  refine ⟨?_, ?_, ?_, ?_⟩
  · unfold get_rotation_format num_supported_rotation_formats bool_to_int
    cases h1 : settings.is_rotation_format_supported rotation_format8.quatf_full <;>
      cases h2 : settings.is_rotation_format_supported rotation_format8.quatf_drop_w_full <;>
      cases h3 : settings.is_rotation_format_supported
        rotation_format8.quatf_drop_w_variable <;>
      simp [h1, h2, h3]
  · unfold get_vector_format num_supported_vector_formats bool_to_int
    cases h1 : adapter.is_vector_format_supported vector_format8.vector3f_full <;>
      cases h2 : adapter.is_vector_format_supported vector_format8.vector3f_variable <;>
      simp [h1, h2]
  · unfold get_rotation_format num_supported_rotation_formats bool_to_int
    cases rotation_format <;>
      cases h1 : settings.is_rotation_format_supported rotation_format8.quatf_full <;>
      cases h2 : settings.is_rotation_format_supported rotation_format8.quatf_drop_w_full <;>
      cases h3 : settings.is_rotation_format_supported
        rotation_format8.quatf_drop_w_variable <;>
      simp [h1, h2, h3]
  · unfold get_vector_format num_supported_vector_formats bool_to_int
    cases vector_format <;>
      cases h1 : adapter.is_vector_format_supported vector_format8.vector3f_full <;>
      cases h2 : adapter.is_vector_format_supported vector_format8.vector3f_variable <;>
      simp [h1, h2]

/-- Witness of C20: settings that support no format return `quatf_drop_w_variable` and
`vector3f_variable` on the inputs `quatf_full` and `vector3f_full`. -/
theorem C20_no_supported_format_witness :
    (num_supported_rotation_formats no_format_settings = 0 ∧
      num_supported_vector_formats
        (scale_decompression_settings_adapter ℚ no_format_settings) = 0) ∧
    get_rotation_format no_format_settings rotation_format8.quatf_full =
      rotation_format8.quatf_drop_w_variable ∧
    get_vector_format (scale_decompression_settings_adapter ℚ no_format_settings)
      vector_format8.vector3f_full = vector_format8.vector3f_variable :=
  ⟨⟨by decide, by decide⟩,
    ((C20_no_supported_format_returns_last_format ℚ no_format_settings
      (scale_decompression_settings_adapter ℚ no_format_settings)
      rotation_format8.quatf_full vector_format8.vector3f_full).1 (by decide)).1,
    ((C20_no_supported_format_returns_last_format ℚ no_format_settings
      (scale_decompression_settings_adapter ℚ no_format_settings)
      rotation_format8.quatf_full vector_format8.vector3f_full).2.1 (by decide)).1⟩

/-! ## The persistent context: claims -/

/-- C12: for every state of `persistent_transform_decompression_context_v0`, `is_initialized()`
is true exactly when the `tracks` handle is not null; after `reset()`, `is_initialized()` is
false and `get_compressed_tracks()` is null; `reset()` leaves every other field as it was; and
a second `reset()` changes nothing. -/
theorem C12_reset_clears_only_the_tracks_handle (F : Type)
    (context : persistent_transform_decompression_context_v0 F) :
    (context.is_initialized = true ↔ context.tracks ≠ 0) ∧
    context.reset.is_initialized = false ∧
    context.reset.get_compressed_tracks = 0 ∧
    (context.reset.db = context.db ∧
      context.reset.constant_tracks_bitset = context.constant_tracks_bitset ∧
      context.reset.constant_track_data = context.constant_track_data ∧
      context.reset.default_tracks_bitset = context.default_tracks_bitset ∧
      context.reset.clip_range_data = context.clip_range_data ∧
      context.reset.clip_duration = context.clip_duration ∧
      context.reset.bitset_desc = context.bitset_desc ∧
      context.reset.clip_hash = context.clip_hash ∧
      context.reset.rotation_format = context.rotation_format ∧
      context.reset.translation_format = context.translation_format ∧
      context.reset.scale_format = context.scale_format ∧
      context.reset.range_reduction = context.range_reduction ∧
      context.reset.num_rotation_components = context.num_rotation_components ∧
      context.reset.has_segments = context.has_segments ∧
      context.reset.sample_time = context.sample_time ∧
      context.reset.format_per_track_data_0 = context.format_per_track_data_0 ∧
      context.reset.format_per_track_data_1 = context.format_per_track_data_1 ∧
      context.reset.segment_range_data_0 = context.segment_range_data_0 ∧
      context.reset.segment_range_data_1 = context.segment_range_data_1 ∧
      context.reset.animated_track_data_0 = context.animated_track_data_0 ∧
      context.reset.animated_track_data_1 = context.animated_track_data_1 ∧
      context.reset.key_frame_bit_offsets_0 = context.key_frame_bit_offsets_0 ∧
      context.reset.key_frame_bit_offsets_1 = context.key_frame_bit_offsets_1 ∧
      context.reset.interpolation_alpha = context.interpolation_alpha) ∧
    context.reset.reset = context.reset := by
  refine ⟨?_, ?_, rfl, ?_, rfl⟩
  · simp [persistent_transform_decompression_context_v0.is_initialized]
  · simp [persistent_transform_decompression_context_v0.is_initialized,
      persistent_transform_decompression_context_v0.reset]
  · simp [persistent_transform_decompression_context_v0.reset]

/-- Witness of C12 on `sample_context`: bound before `reset()`, not bound after it, with the
stored formats and the interpolation factor untouched. -/
theorem C12_reset_witness :
    sample_context.is_initialized = true ∧
    sample_context.reset.is_initialized = false ∧
    sample_context.reset.rotation_format = rotation_format8.quatf_drop_w_variable ∧
    sample_context.reset.interpolation_alpha = sample_context.interpolation_alpha :=
  ⟨by decide,
    (C12_reset_clears_only_the_tracks_handle ℚ sample_context).2.1,
    (C12_reset_clears_only_the_tracks_handle ℚ sample_context).2.2.2.1.2.2.2.2.2.2.2.2.1,
    (C12_reset_clears_only_the_tracks_handle ℚ
      sample_context).2.2.2.1.2.2.2.2.2.2.2.2.2.2.2.2.2.2.2.2.2.2.2.2.2.2.2⟩

/-- C13: laid out in declared order with natural alignment, the members of
`persistent_transform_decompression_context_v0` are at the offsets written in the comments of
the struct, for pointers of 4 bytes and of 8 bytes; `padding1` has 44 bytes at offset 84 in
the first case and 12 bytes at offset 116 in the second; it ends at byte 128 in both, and the
size of the struct is 128, a multiple of its alignment of 64. -/
theorem C13_context_layout_is_128_bytes :
    member_offsets 0 (context_v0_members 4) = context_v0_commented_offsets_32 ∧
    member_offsets 0 (context_v0_members 8) = context_v0_commented_offsets_64 ∧
    ((context_v0_members 4).getLast? = some ⟨44, 1⟩ ∧
      (member_offsets 0 (context_v0_members 4)).getLast? = some 84 ∧ 84 + 44 = 128) ∧
    ((context_v0_members 8).getLast? = some ⟨12, 1⟩ ∧
      (member_offsets 0 (context_v0_members 8)).getLast? = some 116 ∧ 116 + 12 = 128) ∧
    members_end 0 (context_v0_members 4) = 128 ∧
    members_end 0 (context_v0_members 8) = 128 ∧
    context_v0_sizeof 4 = 128 ∧
    context_v0_sizeof 8 = 128 ∧
    128 % context_v0_alignment = 0 := by
  decide

/-- C14: an offset constructed from the invalid marker reports `is_valid() = false`; an offset
constructed from a 32-bit integer `v` reports `is_valid() = true` and converts back to `v`;
for every base pointer `p`, `add_to(p)` of that offset is exactly `p + v` and equals
`safe_add_to(p)`; and the same two facts hold for every valid offset and the value it
holds. -/
theorem C14_ptr_offset_valid_adds_exactly (v p : Nat) (hv : v < 4294967296) :
    ptr_offset32.from_invalid_marker.is_valid = false ∧
    (ptr_offset32.from_value v).is_valid = true ∧
    (ptr_offset32.from_value v).to_uint32 = some v ∧
    (ptr_offset32.from_value v).add_to p = some (p + v) ∧
    (ptr_offset32.from_value v).add_to p = some ((ptr_offset32.from_value v).safe_add_to p) ∧
    ∀ o : ptr_offset32, o.is_valid = true →
      ∃ w : Nat, o.to_uint32 = some w ∧ o.add_to p = some (p + w) ∧
        o.add_to p = some (o.safe_add_to p) := by
  have e : u32 v = v := Nat.mod_eq_of_lt hv
  refine ⟨rfl, rfl, ?_, ?_, rfl, ?_⟩
  · simp [ptr_offset32.from_value, ptr_offset32.to_uint32, e]
  · simp [ptr_offset32.from_value, ptr_offset32.add_to, e]
  · intro o ho
    cases o with
    | invalid => simp [ptr_offset32.is_valid] at ho
    | offset w => exact ⟨w, rfl, rfl, rfl⟩

/-- Witness of C14, the case of the test: the offset 32 added to the null pointer. -/
theorem C14_ptr_offset_witness :
    (32 : Nat) < 4294967296 ∧
    (ptr_offset32.from_value 32).is_valid = true ∧
    (ptr_offset32.from_value 32).to_uint32 = some 32 ∧
    (ptr_offset32.from_value 32).add_to 0 = some (0 + 32) ∧
    (ptr_offset32.from_value 32).add_to 0 =
      some ((ptr_offset32.from_value 32).safe_add_to 0) :=
  ⟨by decide,
    (C14_ptr_offset_valid_adds_exactly 32 0 (by decide)).2.1,
    (C14_ptr_offset_valid_adds_exactly 32 0 (by decide)).2.2.1,
    (C14_ptr_offset_valid_adds_exactly 32 0 (by decide)).2.2.2.1,
    (C14_ptr_offset_valid_adds_exactly 32 0 (by decide)).2.2.2.2.1⟩

/-- C16: for every settings and every context, the translation adapter returns the flag
`translations`, reads `context.translation_format` whatever `context.scale_format` is, and
forwards `is_vector_format_supported` to `is_translation_format_supported`; the scale adapter
returns the flag `scales`, reads `context.scale_format` whatever `context.translation_format`
is, and forwards to `is_scale_format_supported`. -/
theorem C16_adapters_select_their_category (F : Type) (settings : decompression_settings)
    (context : persistent_transform_decompression_context_v0 F)
    (format other : vector_format8) :
    ((translation_decompression_settings_adapter F settings).get_range_reduction_flag =
        range_reduction_flags8.translations_flag ∧
      (translation_decompression_settings_adapter F settings).get_vector_format context =
        context.translation_format ∧
      (translation_decompression_settings_adapter F settings).get_vector_format
          { context with scale_format := other } =
        (translation_decompression_settings_adapter F settings).get_vector_format context ∧
      (translation_decompression_settings_adapter F settings).is_vector_format_supported
          format = settings.is_translation_format_supported format) ∧
    ((scale_decompression_settings_adapter F settings).get_range_reduction_flag =
        range_reduction_flags8.scales_flag ∧
      (scale_decompression_settings_adapter F settings).get_vector_format context =
        context.scale_format ∧
      (scale_decompression_settings_adapter F settings).get_vector_format
          { context with translation_format := other } =
        (scale_decompression_settings_adapter F settings).get_vector_format context ∧
      (scale_decompression_settings_adapter F settings).is_vector_format_supported format =
        settings.is_scale_format_supported format) ∧
    range_reduction_flags8.translations_flag ≠ range_reduction_flags8.scales_flag := by
  refine ⟨⟨rfl, rfl, rfl, rfl⟩, ⟨rfl, rfl, rfl, rfl⟩, ?_⟩
  decide

/-- Witness of C16 on `sample_context`, whose translation format is `vector3f_variable` and
whose scale format is `vector3f_full`: each adapter reads the format of its own category. -/
theorem C16_adapters_witness :
    (translation_decompression_settings_adapter ℚ variable_only_settings).get_vector_format
        sample_context = vector_format8.vector3f_variable ∧
    (scale_decompression_settings_adapter ℚ variable_only_settings).get_vector_format
        sample_context = vector_format8.vector3f_full :=
  ⟨(C16_adapters_select_their_category ℚ variable_only_settings sample_context
      vector_format8.vector3f_full vector_format8.vector3f_full).1.2.1,
    (C16_adapters_select_their_category ℚ variable_only_settings sample_context
      vector_format8.vector3f_full vector_format8.vector3f_full).2.1.2.1⟩

/-! ## Lemmas on the bit tests and on the keyframe cursors -/

section more_lemmas
variable {F : Type} [Add F] [Sub F] [Mul F] [Zero F] [One F]
variable (ext : Externals F) (header : FullPrecisionHeader F) (size : Nat) (alpha : F)

theorem rotation_track_bit_tests (b : Nat) (s : DecodeState F) :
    bit_tests (decode_rotation_track ext header size alpha b s).trace =
      bit_tests s.trace ++
        (if ext.bitset_test header.default_tracks_bitset size s.default_track_offset then
          [BitTest.default_tracks s.default_track_offset]
        else [BitTest.default_tracks s.default_track_offset,
          BitTest.constant_tracks s.constant_track_offset]) := by
  unfold decode_rotation_track bit_tests
  split_ifs <;> simp [List.filterMap_append, List.filterMap_cons]

theorem translation_track_bit_tests (b : Nat) (s : DecodeState F) :
    bit_tests (decode_translation_track ext header size alpha b s).trace =
      bit_tests s.trace ++
        (if ext.bitset_test header.default_tracks_bitset size s.default_track_offset then
          [BitTest.default_tracks s.default_track_offset]
        else [BitTest.default_tracks s.default_track_offset,
          BitTest.constant_tracks s.constant_track_offset]) := by
  unfold decode_translation_track bit_tests
  split_ifs <;> simp [List.filterMap_append, List.filterMap_cons]

theorem decode_bones_bit_tests (s : DecodeState F) (h0 : s.default_track_offset = 0)
    (h1 : s.constant_track_offset = 0) (n : Nat) (hn : n ≤ 2147483648) :
    bit_tests (decode_bones ext header (tracks_bitset_size header) alpha s n).trace =
      bit_tests s.trace ++
        (List.range n).flatMap fun b =>
          track_bit_tests ext header (2 * b) ++ track_bit_tests ext header (2 * b + 1) := by
  induction n with
  | zero => simp [decode_bones_zero]
  | succ n ih =>
    have ih := ih (by omega)
    have hoff := decode_bones_offsets ext header (tracks_bitset_size header) alpha s h0 h1 n
    have e0 : u32 (2 * n) = 2 * n := u32_of_lt (by omega)
    have e1 : u32 (2 * n + 1) = 2 * n + 1 := u32_of_lt (by omega)
    rw [e0] at hoff
    rw [decode_bones_succ]
    unfold decode_bone
    rw [translation_track_bit_tests, rotation_track_bit_tests,
      rotation_track_default_track_offset, rotation_track_constant_track_offset,
      hoff.1, hoff.2, e1, ih, List.range_succ]
    simp [track_bit_tests, default_bit, List.append_assoc]

theorem bit_tests_default_tests (trace : List (Event F)) :
    default_tests trace =
      (bit_tests trace).filterMap fun t =>
        match t with
        | BitTest.default_tracks offset => some offset
        | BitTest.constant_tracks _ => none := by
  unfold default_tests bit_tests
  rw [List.filterMap_filterMap]
  congr 1
  funext e
  cases e <;> rfl

theorem bit_tests_constant_tests (trace : List (Event F)) :
    constant_tests trace =
      (bit_tests trace).filterMap fun t =>
        match t with
        | BitTest.default_tracks _ => none
        | BitTest.constant_tracks offset => some offset := by
  unfold constant_tests bit_tests
  rw [List.filterMap_filterMap]
  congr 1
  funext e
  cases e <;> rfl

theorem countP_range_mono (p : Nat → Bool) {m n : Nat} (h : m ≤ n) :
    (List.range m).countP p ≤ (List.range n).countP p := by
  induction n with
  | zero =>
    have : m = 0 := by omega
    subst this
    exact Nat.le_refl _
  | succ n ih =>
    rcases Nat.lt_or_ge m (n + 1) with hlt | hge
    · have := ih (by omega)
      rw [countP_range_succ]
      omega
    · have : m = n + 1 := by omega
      subst this
      exact Nat.le_refl _

end more_lemmas

/-! ## The full precision decoder: the shared index, the bit test bounds, the keyframes -/

section index_claims
variable {F : Type} [Add F] [Sub F] [Mul F] [Zero F] [One F] [NatCast F] [Div F]

theorem decoder_constant_tests_lt (ext : Externals F) (header : FullPrecisionHeader F)
    (sample_time : F) (h32 : 2 * header.num_bones ≤ 4294967296) (o : Nat)
    (ho : o ∈ constant_tests (full_precision_decoder ext header sample_time).trace) :
    o < 2 * header.num_bones := by
  rw [bit_tests_constant_tests, full_precision_decoder_eq,
    decode_bones_bit_tests ext header _ _ rfl rfl _ (by omega)] at ho
  simp only [initial_state, bit_tests, List.filterMap_nil, List.nil_append,
    List.mem_filterMap, List.mem_flatMap, List.mem_range, List.mem_append] at ho
  obtain ⟨t, ⟨b, hb, ht⟩, hto⟩ := ho
  unfold track_bit_tests at ht
  have key : t = BitTest.default_tracks (2 * b) ∨ t = BitTest.constant_tracks (2 * b) ∨
      t = BitTest.default_tracks (2 * b + 1) ∨ t = BitTest.constant_tracks (2 * b + 1) := by
    rcases ht with ht | ht <;> split_ifs at ht <;> simp at ht <;> tauto
  rcases key with e | e | e | e <;> subst e
  · exact absurd hto (by simp)
  · have e : 2 * b = o := by simpa using hto
    omega
  · exact absurd hto (by simp)
  · have e : 2 * b + 1 = o := by simpa using hto
    omega

/-- C17: the two bitsets are indexed by one shared running index.  From the start of the pass,
after any number of bones and also between the two tracks of a bone,
`default_track_offset = constant_track_offset`; a track step started with the two offsets equal
tests the constant bit, when it tests it, at the offset at which it tested the default bit, and
leaves the two offsets equal; and for every clip whose track indices fit a `uint32_t` the bit
tests of a pass are, bone by bone, the default bit `2b`, the constant bit `2b` when that
default bit is clear, the default bit `2b + 1`, and the constant bit `2b + 1` when that default
bit is clear. -/
theorem C17_bitsets_share_one_running_index (ext : Externals F)
    (header : FullPrecisionHeader F) (sample_time : F)
    (h32 : 2 * header.num_bones ≤ 4294967296) :
    (∀ n : Nat,
      (state_before_rotation ext header sample_time n).default_track_offset =
        (state_before_rotation ext header sample_time n).constant_track_offset ∧
      (state_before_translation ext header sample_time n).default_track_offset =
        (state_before_translation ext header sample_time n).constant_track_offset) ∧
    (∀ (size : Nat) (alpha : F) (b : Nat) (s : DecodeState F),
      s.default_track_offset = s.constant_track_offset →
      ((decode_rotation_track ext header size alpha b s).default_track_offset =
          (decode_rotation_track ext header size alpha b s).constant_track_offset ∧
        bit_tests (decode_rotation_track ext header size alpha b s).trace =
          bit_tests s.trace ++
            (if ext.bitset_test header.default_tracks_bitset size s.default_track_offset then
              [BitTest.default_tracks s.default_track_offset]
            else [BitTest.default_tracks s.default_track_offset,
              BitTest.constant_tracks s.default_track_offset])) ∧
      ((decode_translation_track ext header size alpha b s).default_track_offset =
          (decode_translation_track ext header size alpha b s).constant_track_offset ∧
        bit_tests (decode_translation_track ext header size alpha b s).trace =
          bit_tests s.trace ++
            (if ext.bitset_test header.default_tracks_bitset size s.default_track_offset then
              [BitTest.default_tracks s.default_track_offset]
            else [BitTest.default_tracks s.default_track_offset,
              BitTest.constant_tracks s.default_track_offset]))) ∧
    bit_tests (full_precision_decoder ext header sample_time).trace =
      ((List.range header.num_bones).flatMap fun b =>
        track_bit_tests ext header (2 * b) ++ track_bit_tests ext header (2 * b + 1)) := by
  refine ⟨?_, ?_, ?_⟩
  · intro n
    have hoff := decode_bones_offsets ext header (tracks_bitset_size header)
      (interpolation_keys ext header sample_time).interpolation_alpha
      (initial_state ext header sample_time) rfl rfl n
    unfold state_before_translation state_before_rotation
    rw [rotation_track_default_track_offset, rotation_track_constant_track_offset,
      hoff.1, hoff.2]
    exact ⟨rfl, rfl⟩
  · intro size alpha b s hs
    rw [rotation_track_default_track_offset, rotation_track_constant_track_offset,
      translation_track_default_track_offset, translation_track_constant_track_offset,
      rotation_track_bit_tests, translation_track_bit_tests, hs]
    exact ⟨⟨rfl, rfl⟩, rfl, rfl⟩
  · rw [full_precision_decoder_eq,
      decode_bones_bit_tests ext header _ _ rfl rfl _ (by omega)]
    simp [initial_state, bit_tests]

/-- Witness of C17 on `mixed_header`: the constant bitset is tested at the tracks 0, 1, 4 and
5, each time right after the default bitset at the same offset, and not at the default tracks
2 and 3. -/
theorem C17_shared_index_witness :
    2 * mixed_header.num_bones ≤ 4294967296 ∧
    bit_tests (full_precision_decoder spec_externals mixed_header (1 / 30)).trace =
      [BitTest.default_tracks 0, BitTest.constant_tracks 0,
        BitTest.default_tracks 1, BitTest.constant_tracks 1,
        BitTest.default_tracks 2, BitTest.default_tracks 3,
        BitTest.default_tracks 4, BitTest.constant_tracks 4,
        BitTest.default_tracks 5, BitTest.constant_tracks 5] :=
  ⟨by decide,
    (C17_bitsets_share_one_running_index spec_externals mixed_header (1 / 30)
      (by decide)).2.2.trans (by decide)⟩

/-- C18: for every clip with `2 * num_bones + 31 < 2^32` the word count of line 74 is
`(2 * num_bones + 31) / 32`, for every bone `b < num_bones` the tested indices `2b` and
`2b + 1` are below `bitset_size * BITSET_WIDTH`, and every offset at which a pass tests the
default bitset or the constant bitset is below `bitset_size * BITSET_WIDTH`: the bit tests
meet their precondition. -/
theorem C18_bit_tests_meet_their_precondition (ext : Externals F)
    (header : FullPrecisionHeader F) (sample_time : F) (b : Nat)
    (h : 2 * header.num_bones + 31 < 4294967296) (hb : b < header.num_bones) :
    tracks_bitset_size header = (2 * header.num_bones + 31) / 32 ∧
    2 * b < tracks_bitset_size header * FullPrecisionConstants.BITSET_WIDTH ∧
    2 * b + 1 < tracks_bitset_size header * FullPrecisionConstants.BITSET_WIDTH ∧
    (∀ o ∈ default_tests (full_precision_decoder ext header sample_time).trace,
      o < tracks_bitset_size header * FullPrecisionConstants.BITSET_WIDTH) ∧
    (∀ o ∈ constant_tests (full_precision_decoder ext header sample_time).trace,
      o < tracks_bitset_size header * FullPrecisionConstants.BITSET_WIDTH) := by
  have hsize : tracks_bitset_size header = (2 * header.num_bones + 31) / 32 := by
    unfold tracks_bitset_size FullPrecisionConstants.NUM_TRACKS_PER_BONE
      FullPrecisionConstants.BITSET_WIDTH
    rw [bitset_size_of_small _ _ (by omega)]
    congr 2
    omega
  have hdef : default_tests (full_precision_decoder ext header sample_time).trace =
      List.range (2 * header.num_bones) := by
    rw [full_precision_decoder_eq,
      decode_bones_default_tests ext header _ _ _ rfl rfl _ (by omega)]
    simp [initial_state, default_tests]
  unfold FullPrecisionConstants.BITSET_WIDTH
  refine ⟨hsize, ?_, ?_, ?_, ?_⟩
  · omega
  · omega
  · intro o ho
    rw [hdef, List.mem_range] at ho
    omega
  · intro o ho
    have := decoder_constant_tests_lt ext header sample_time (by omega) o ho
    omega

/-- Witness of C18 on `mixed_header`: 3 bones, one word of 32 bits, and the last tested index
5 is below 32. -/
theorem C18_bit_tests_witness :
    (2 * mixed_header.num_bones + 31 < 4294967296 ∧ 2 < mixed_header.num_bones) ∧
    tracks_bitset_size mixed_header = 1 ∧
    2 * 2 + 1 < tracks_bitset_size mixed_header * FullPrecisionConstants.BITSET_WIDTH :=
  ⟨⟨by decide, by decide⟩,
    (C18_bit_tests_meet_their_precondition spec_externals mixed_header (1 / 30) 2
      (by decide) (by decide)).1.trans (by decide),
    (C18_bit_tests_meet_their_precondition spec_externals mixed_header (1 / 30) 2
      (by decide) (by decide)).2.2.1⟩

end index_claims

/-! ## The full precision decoder: the keyframe cursors -/

section key_frame_claims
variable {F : Type} [Add F] [Sub F] [Mul F] [Zero F] [One F] [NatCast F] [Div F]

theorem num_animated_floats_of_small (header : FullPrecisionHeader F)
    (h : 4 * header.num_animated_rotation_tracks +
      3 * header.num_animated_translation_tracks < 4294967296) :
    num_animated_floats_per_key_frame header =
      4 * header.num_animated_rotation_tracks +
        3 * header.num_animated_translation_tracks := by
  unfold num_animated_floats_per_key_frame u32_add u32_mul u32
  omega

theorem state_before_rotation_key_frame_data (ext : Externals F)
    (header : FullPrecisionHeader F) (sample_time : F) (b : Nat) (hb : b ≤ 2147483648) :
    (state_before_rotation ext header sample_time b).key_frame_data0 =
        key_frame_offset header (interpolation_keys ext header sample_time).key_frame0 +
          animated_rotation_offset ext header b ∧
      (state_before_rotation ext header sample_time b).key_frame_data1 =
        key_frame_offset header (interpolation_keys ext header sample_time).key_frame1 +
          animated_rotation_offset ext header b := by
  have hcur := decode_bones_cursors ext header
    (interpolation_keys ext header sample_time).interpolation_alpha
    (initial_state ext header sample_time) rfl rfl b hb
  exact ⟨hcur.2.1, hcur.2.2⟩

theorem state_before_translation_key_frame_data (ext : Externals F)
    (header : FullPrecisionHeader F) (sample_time : F) (b : Nat) (hb : b < 2147483648) :
    (state_before_translation ext header sample_time b).key_frame_data0 =
        key_frame_offset header (interpolation_keys ext header sample_time).key_frame0 +
          animated_translation_offset ext header b ∧
      (state_before_translation ext header sample_time b).key_frame_data1 =
        key_frame_offset header (interpolation_keys ext header sample_time).key_frame1 +
          animated_translation_offset ext header b := by
  have hk := state_before_rotation_key_frame_data ext header sample_time b (by omega)
  have hoff := decode_bones_offsets ext header (tracks_bitset_size header)
    (interpolation_keys ext header sample_time).interpolation_alpha
    (initial_state ext header sample_time) rfl rfl b
  have e0 : u32 (2 * b) = 2 * b := u32_of_lt (by omega)
  rw [e0] at hoff
  unfold state_before_translation
  rw [(rotation_track_key_frame_data ext header _ _ b _).1,
    (rotation_track_key_frame_data ext header _ _ b _).2, hk.1, hk.2,
    animated_translation_offset_eq]
  unfold state_before_rotation
  rw [hoff.1, hoff.2]
  constructor <;> omega

theorem animated_rotation_read_in_block (ext : Externals F) (header : FullPrecisionHeader F)
    (b : Nat) (hb : b < header.num_bones)
    (ha : is_animated_track ext header (2 * b) = true) :
    animated_rotation_offset ext header b + 4 ≤
      animated_rotation_offset ext header header.num_bones := by
  have h1 := countP_range_mono (fun j => is_animated_track ext header (2 * j))
    (show b + 1 ≤ header.num_bones by omega)
  have h2 := countP_range_mono (fun j => is_animated_track ext header (2 * j + 1))
    (show b ≤ header.num_bones by omega)
  rw [countP_range_succ] at h1
  simp only [ha, if_true] at h1
  unfold animated_rotation_offset num_animated_rotations_before
    num_animated_translations_before
  omega

theorem animated_translation_read_in_block (ext : Externals F)
    (header : FullPrecisionHeader F) (b : Nat) (hb : b < header.num_bones)
    (ha : is_animated_track ext header (2 * b + 1) = true) :
    animated_translation_offset ext header b + 3 ≤
      animated_rotation_offset ext header header.num_bones := by
  have h1 := countP_range_mono (fun j => is_animated_track ext header (2 * j))
    (show b + 1 ≤ header.num_bones by omega)
  have h2 := countP_range_mono (fun j => is_animated_track ext header (2 * j + 1))
    (show b + 1 ≤ header.num_bones by omega)
  rw [countP_range_succ (fun j => is_animated_track ext header (2 * j + 1))] at h2
  simp only [ha, if_true] at h2
  unfold animated_translation_offset animated_rotation_offset num_animated_rotations_before
    num_animated_translations_before
  omega

/-- C15: for every clip whose stride `4 * num_animated_rotation_tracks +
3 * num_animated_translation_tracks` and whose two products `key_frame_k * stride` fit a
`uint32_t`, and every bone `b < num_bones` whose track indices fit a `uint32_t`: the
per-keyframe stride is that number of floats; the keyframe-`k` cursor starts at float offset
`key_frame_k * stride` of the animated stream; when the rotation of bone `b` is decoded the
cursor is at `key_frame_k * stride` + 4 * (animated rotations of bones below `b`) +
3 * (animated translations of bones below `b`), when its translation is decoded at
`key_frame_k * stride` + 4 * (animated rotations of bones up to `b`) + 3 * (animated
translations of bones below `b`); and an animated track is written as the blend of the values
read at these two offsets. -/
theorem C15_key_frame_cursor_offsets (ext : Externals F) (header : FullPrecisionHeader F)
    (sample_time : F) (b : Nat) (hb : b < header.num_bones)
    (h32 : 2 * b + 1 < 4294967296) (k0 k1 : Nat) (alpha : F)
    (hkeys : interpolation_keys ext header sample_time = ⟨k0, k1, alpha⟩)
    (hstride : 4 * header.num_animated_rotation_tracks +
      3 * header.num_animated_translation_tracks < 4294967296)
    (hk0 : k0 * (4 * header.num_animated_rotation_tracks +
      3 * header.num_animated_translation_tracks) < 4294967296)
    (hk1 : k1 * (4 * header.num_animated_rotation_tracks +
      3 * header.num_animated_translation_tracks) < 4294967296) :
    num_animated_floats_per_key_frame header =
      4 * header.num_animated_rotation_tracks +
        3 * header.num_animated_translation_tracks ∧
    ((initial_state ext header sample_time).key_frame_data0 =
        k0 * num_animated_floats_per_key_frame header ∧
      (initial_state ext header sample_time).key_frame_data1 =
        k1 * num_animated_floats_per_key_frame header) ∧
    ((state_before_rotation ext header sample_time b).key_frame_data0 =
        k0 * num_animated_floats_per_key_frame header +
          (4 * num_animated_rotations_before ext header b +
            3 * num_animated_translations_before ext header b) ∧
      (state_before_rotation ext header sample_time b).key_frame_data1 =
        k1 * num_animated_floats_per_key_frame header +
          (4 * num_animated_rotations_before ext header b +
            3 * num_animated_translations_before ext header b)) ∧
    ((state_before_translation ext header sample_time b).key_frame_data0 =
        k0 * num_animated_floats_per_key_frame header +
          (4 * num_animated_rotations_before ext header (b + 1) +
            3 * num_animated_translations_before ext header b) ∧
      (state_before_translation ext header sample_time b).key_frame_data1 =
        k1 * num_animated_floats_per_key_frame header +
          (4 * num_animated_rotations_before ext header (b + 1) +
            3 * num_animated_translations_before ext header b)) ∧
    (default_bit ext header (2 * b) = false → constant_bit ext header (2 * b) = false →
      rotation_writes (full_precision_decoder ext header sample_time).trace b =
        [quat_lerp
          (quat_unaligned_load header.track_data
            (k0 * num_animated_floats_per_key_frame header +
              (4 * num_animated_rotations_before ext header b +
                3 * num_animated_translations_before ext header b)))
          (quat_unaligned_load header.track_data
            (k1 * num_animated_floats_per_key_frame header +
              (4 * num_animated_rotations_before ext header b +
                3 * num_animated_translations_before ext header b)))
          alpha]) ∧
    (default_bit ext header (2 * b + 1) = false →
        constant_bit ext header (2 * b + 1) = false →
      translation_writes (full_precision_decoder ext header sample_time).trace b =
        [vector_lerp
          (vector_unaligned_load3 header.track_data
            (k0 * num_animated_floats_per_key_frame header +
              (4 * num_animated_rotations_before ext header (b + 1) +
                3 * num_animated_translations_before ext header b)))
          (vector_unaligned_load3 header.track_data
            (k1 * num_animated_floats_per_key_frame header +
              (4 * num_animated_rotations_before ext header (b + 1) +
                3 * num_animated_translations_before ext header b)))
          alpha]) := by
  have hs := num_animated_floats_of_small header hstride
  have e0 : key_frame_offset header k0 = k0 * num_animated_floats_per_key_frame header := by
    unfold key_frame_offset u32_mul
    rw [hs]
    exact u32_of_lt hk0
  have e1 : key_frame_offset header k1 = k1 * num_animated_floats_per_key_frame header := by
    unfold key_frame_offset u32_mul
    rw [hs]
    exact u32_of_lt hk1
  have hr := state_before_rotation_key_frame_data ext header sample_time b (by omega)
  have ht := state_before_translation_key_frame_data ext header sample_time b (by omega)
  rw [hkeys] at hr ht
  simp only [e0, e1] at hr ht
  refine ⟨hs, ?_, hr, ht, ?_, ?_⟩
  · unfold initial_state
    simp only [hkeys]
    exact ⟨e0, e1⟩
  · intro hd hc
    rw [written_rotation ext header sample_time b hb h32, hd, hc, hkeys]
    simp [stored_rotation, e0, e1, animated_rotation_offset]
  · intro hd hc
    rw [written_translation ext header sample_time b hb h32, hd, hc, hkeys]
    simp [stored_translation, e0, e1, animated_translation_offset]

/-- Witness of C15 on `mixed_header` at the time of sample 1: the stride is 7 floats, the
cursors start at 7 and 14, and the animated rotation of bone 2, after the animated translation
of bone 0, is read at the offsets 10 and 17. -/
theorem C15_key_frame_cursor_witness :
    ((2 < mixed_header.num_bones ∧ 2 * 2 + 1 < 4294967296) ∧
      interpolation_keys spec_externals mixed_header (1 / 30) = ⟨1, 2, 0⟩ ∧
      (4 * mixed_header.num_animated_rotation_tracks +
          3 * mixed_header.num_animated_translation_tracks < 4294967296 ∧
        1 * (4 * mixed_header.num_animated_rotation_tracks +
          3 * mixed_header.num_animated_translation_tracks) < 4294967296 ∧
        2 * (4 * mixed_header.num_animated_rotation_tracks +
          3 * mixed_header.num_animated_translation_tracks) < 4294967296)) ∧
    num_animated_floats_per_key_frame mixed_header = 7 ∧
    (state_before_rotation spec_externals mixed_header (1 / 30) 2).key_frame_data0 = 10 ∧
    (state_before_rotation spec_externals mixed_header (1 / 30) 2).key_frame_data1 = 17 :=
  ⟨⟨⟨by decide, by decide⟩, mixed_keys_at_second_sample, by decide, by decide, by decide⟩,
    (C15_key_frame_cursor_offsets spec_externals mixed_header (1 / 30) 2 (by decide)
      (by decide) 1 2 0 mixed_keys_at_second_sample (by decide) (by decide)
      (by decide)).1.trans (by decide),
    (C15_key_frame_cursor_offsets spec_externals mixed_header (1 / 30) 2 (by decide)
      (by decide) 1 2 0 mixed_keys_at_second_sample (by decide) (by decide)
      (by decide)).2.2.1.1.trans (by decide),
    (C15_key_frame_cursor_offsets spec_externals mixed_header (1 / 30) 2 (by decide)
      (by decide) 1 2 0 mixed_keys_at_second_sample (by decide) (by decide)
      (by decide)).2.2.1.2.trans (by decide)⟩

/-- C19: for every clip whose track indices fit a `uint32_t`, one pass advances each of the two
keyframe cursors by exactly `4 * A_r + 3 * A_t` floats, `A_r` and `A_t` being the numbers of
rotation and of translation tracks with default bit and constant bit both clear.  When the
header counts are `A_r` and `A_t` and the stride and the two products `key_frame_k * stride`
fit a `uint32_t`, the stride is `4 * A_r + 3 * A_t`, every read of an animated track through
the keyframe-`k` cursor (4 floats for a rotation, 3 for a translation) lies inside
`[key_frame_k * stride, (key_frame_k + 1) * stride)`, and with `key_frame1 = key_frame0 + 1`
the keyframe-0 cursor ends where the keyframe-1 cursor started. -/
theorem C19_key_frame_cursors_stay_in_their_block (ext : Externals F)
    (header : FullPrecisionHeader F) (sample_time : F)
    (h32 : 2 * header.num_bones ≤ 4294967296) (k0 k1 : Nat) (alpha : F)
    (hkeys : interpolation_keys ext header sample_time = ⟨k0, k1, alpha⟩) :
    ((full_precision_decoder ext header sample_time).key_frame_data0 =
        (initial_state ext header sample_time).key_frame_data0 +
          (4 * num_animated_rotations_before ext header header.num_bones +
            3 * num_animated_translations_before ext header header.num_bones) ∧
      (full_precision_decoder ext header sample_time).key_frame_data1 =
        (initial_state ext header sample_time).key_frame_data1 +
          (4 * num_animated_rotations_before ext header header.num_bones +
            3 * num_animated_translations_before ext header header.num_bones)) ∧
    (header.num_animated_rotation_tracks =
        num_animated_rotations_before ext header header.num_bones →
      header.num_animated_translation_tracks =
        num_animated_translations_before ext header header.num_bones →
      4 * header.num_animated_rotation_tracks +
        3 * header.num_animated_translation_tracks < 4294967296 →
      k0 * num_animated_floats_per_key_frame header < 4294967296 →
      k1 * num_animated_floats_per_key_frame header < 4294967296 →
      num_animated_floats_per_key_frame header =
        4 * num_animated_rotations_before ext header header.num_bones +
          3 * num_animated_translations_before ext header header.num_bones ∧
      (∀ b : Nat, b < header.num_bones →
        (is_animated_track ext header (2 * b) = true →
          (k0 * num_animated_floats_per_key_frame header ≤
              (state_before_rotation ext header sample_time b).key_frame_data0 ∧
            (state_before_rotation ext header sample_time b).key_frame_data0 + 4 ≤
              (k0 + 1) * num_animated_floats_per_key_frame header) ∧
          (k1 * num_animated_floats_per_key_frame header ≤
              (state_before_rotation ext header sample_time b).key_frame_data1 ∧
            (state_before_rotation ext header sample_time b).key_frame_data1 + 4 ≤
              (k1 + 1) * num_animated_floats_per_key_frame header)) ∧
        (is_animated_track ext header (2 * b + 1) = true →
          (k0 * num_animated_floats_per_key_frame header ≤
              (state_before_translation ext header sample_time b).key_frame_data0 ∧
            (state_before_translation ext header sample_time b).key_frame_data0 + 3 ≤
              (k0 + 1) * num_animated_floats_per_key_frame header) ∧
          (k1 * num_animated_floats_per_key_frame header ≤
              (state_before_translation ext header sample_time b).key_frame_data1 ∧
            (state_before_translation ext header sample_time b).key_frame_data1 + 3 ≤
              (k1 + 1) * num_animated_floats_per_key_frame header))) ∧
      (k1 = k0 + 1 →
        (full_precision_decoder ext header sample_time).key_frame_data0 =
          (initial_state ext header sample_time).key_frame_data1)) := by
  have hfinal := decode_bones_cursors ext header
    (interpolation_keys ext header sample_time).interpolation_alpha
    (initial_state ext header sample_time) rfl rfl header.num_bones (by omega)
  have hadv : (full_precision_decoder ext header sample_time).key_frame_data0 =
        (initial_state ext header sample_time).key_frame_data0 +
          (4 * num_animated_rotations_before ext header header.num_bones +
            3 * num_animated_translations_before ext header header.num_bones) ∧
      (full_precision_decoder ext header sample_time).key_frame_data1 =
        (initial_state ext header sample_time).key_frame_data1 +
          (4 * num_animated_rotations_before ext header header.num_bones +
            3 * num_animated_translations_before ext header header.num_bones) :=
    ⟨hfinal.2.1, hfinal.2.2⟩
  refine ⟨hadv, ?_⟩
  intro hr ht hstride hk0 hk1
  have hs := num_animated_floats_of_small header hstride
  have hA : num_animated_floats_per_key_frame header =
      animated_rotation_offset ext header header.num_bones := by
    rw [hs, hr, ht]
    rfl
  have e0 : key_frame_offset header k0 = k0 * num_animated_floats_per_key_frame header :=
    u32_of_lt hk0
  have e1 : key_frame_offset header k1 = k1 * num_animated_floats_per_key_frame header :=
    u32_of_lt hk1
  have i0 : (initial_state ext header sample_time).key_frame_data0 =
      k0 * num_animated_floats_per_key_frame header := by
    unfold initial_state
    simp only [hkeys]
    exact e0
  have i1 : (initial_state ext header sample_time).key_frame_data1 =
      k1 * num_animated_floats_per_key_frame header := by
    unfold initial_state
    simp only [hkeys]
    exact e1
  refine ⟨hA, ?_, ?_⟩
  · intro b hb
    have hsr := state_before_rotation_key_frame_data ext header sample_time b (by omega)
    have hst := state_before_translation_key_frame_data ext header sample_time b (by omega)
    rw [hkeys] at hsr hst
    simp only [e0, e1] at hsr hst
    rw [hsr.1, hsr.2, hst.1, hst.2, Nat.add_mul, Nat.add_mul, Nat.one_mul]
    constructor
    · intro ha
      have := animated_rotation_read_in_block ext header b hb ha
      omega
    · intro ha
      have := animated_translation_read_in_block ext header b hb ha
      omega
  · intro hk
    rw [hadv.1, i0, i1, hk, Nat.add_mul, Nat.one_mul]
    unfold animated_rotation_offset at hA
    omega

/-- Witness of C19 on `mixed_header`, whose header counts one animated rotation and one
animated translation as its bitsets do: from the keys `(1, 2)` the keyframe-0 cursor runs from
7 to 14, where the keyframe-1 cursor started. -/
theorem C19_key_frame_cursors_witness :
    (2 * mixed_header.num_bones ≤ 4294967296 ∧
      interpolation_keys spec_externals mixed_header (1 / 30) = ⟨1, 2, 0⟩ ∧
      mixed_header.num_animated_rotation_tracks =
        num_animated_rotations_before spec_externals mixed_header mixed_header.num_bones ∧
      mixed_header.num_animated_translation_tracks =
        num_animated_translations_before spec_externals mixed_header mixed_header.num_bones) ∧
    (initial_state spec_externals mixed_header (1 / 30)).key_frame_data0 = 7 ∧
    (initial_state spec_externals mixed_header (1 / 30)).key_frame_data1 = 14 ∧
    (full_precision_decoder spec_externals mixed_header (1 / 30)).key_frame_data0 = 14 :=
  ⟨⟨by decide, mixed_keys_at_second_sample, by decide, by decide⟩,
    by rw [initial_state, mixed_keys_at_second_sample]; decide,
    by rw [initial_state, mixed_keys_at_second_sample]; decide,
    ((C19_key_frame_cursors_stay_in_their_block spec_externals mixed_header (1 / 30)
      (by decide) 1 2 0 mixed_keys_at_second_sample).2 (by decide) (by decide) (by decide)
      (by decide) (by decide)).2.2 (by decide) |>.trans
        (by rw [initial_state, mixed_keys_at_second_sample]; decide)⟩

end key_frame_claims

end acl
